import Mathlib

/-!
Shallow embedding of `src/backend/app/models/schemas.py` (Mini_RAG contract
layer): pydantic `BaseModel` declarations with field constraints, validated
from JSON-decoded input in pydantic v2 default ("lax") mode.

Raw input is a JSON-decoded mapping from field names to JSON values
(a Python dict, so keys are unique; lookup is by name).  Each model's
`validate…` function mirrors pydantic's construction: every declared field
is checked (type coercion per the pydantic v2 lax conversion table,
then per-field constraints), all field errors are collected in declaration
order into one list, and either a fully-populated record or the list of
`ValErrorItem`s (pydantic's per-error `loc` / `type` / `input` triple) is
returned.  Unknown keys are ignored (pydantic default `extra="ignore"`).

JSON numbers are split into `int` and `num` (float) constructors, as the
Python JSON decoder distinguishes `int` and `float`; floats are modelled
as rationals (the source performs no float arithmetic, it only stores
the values).  Modelling notes on the lax conversion table:
  * str fields accept only JSON strings (no number-to-string coercion);
  * int fields accept ints, integral floats, and strings holding an
    optionally-signed decimal integer literal (whitespace-trimmed);
    bool input is rejected; underscore separators are not modelled;
  * float fields accept floats, ints, and strings holding an
    optionally-signed decimal literal (whitespace-trimmed); exponent,
    `inf` and `nan` spellings are not modelled;
  * bool fields accept bools, 0/1 ints and floats, and the usual
    true/false string spellings, case-insensitively;
  * for a `missing` error the offending `input` is abstracted to null
    (pydantic reports the whole input dict there).
`default_factory=lambda: datetime.utcnow().isoformat()` timestamps are
modelled by passing the produced timestamp string as an explicit `now`
argument to the validators of the two models that use it.
-/

inductive Json where
  | null : Json
  | bool : Bool → Json
  | int : Int → Json
  | num : Rat → Json
  | str : String → Json
  | arr : List Json → Json
  | obj : List (String × Json) → Json

/-- One structured validation error, pydantic-style: the field path,
the violated rule identifier, and the offending value. -/
structure ValErrorItem where
  loc : List String
  type : String
  input : Json

/-- Field lookup in the JSON-decoded input mapping (dict keys are unique). -/
def getField (m : List (String × Json)) (k : String) : Option Json :=
  match m with
  | [] => none
  | (k', v) :: rest => if k' = k then some v else getField rest k

/-- Leading and trailing whitespace removal (pydantic trims string input
before numeric parsing). -/
def trimChars (cs : List Char) : List Char :=
  ((cs.dropWhile Char.isWhitespace).reverse.dropWhile Char.isWhitespace).reverse

/-- Value of a digit string (caller has checked the digits). -/
def digitsVal (cs : List Char) : Nat :=
  cs.foldl (fun n c => 10 * n + (c.toNat - 48)) 0

/-- A non-empty all-decimal-digit string, as a number. -/
def parseDigits (cs : List Char) : Option Nat :=
  if cs ≠ [] ∧ cs.all Char.isDigit then some (digitsVal cs) else none

/-- pydantic v2 lax str-to-int: optionally signed decimal integer literal,
surrounding whitespace allowed. -/
def parseIntString (s : String) : Option Int :=
  match trimChars s.data with
  | '+' :: cs => (parseDigits cs).map Int.ofNat
  | '-' :: cs => (parseDigits cs).map (fun n => -(n : Int))
  | cs => (parseDigits cs).map Int.ofNat

/-- Split at the first dot, keeping what precedes and follows it. -/
def splitDot (cs : List Char) : List Char × Option (List Char) :=
  match cs with
  | [] => ([], none)
  | '.' :: rest => ([], some rest)
  | c :: rest =>
      let p := splitDot rest
      (c :: p.1, p.2)

/-- Unsigned decimal literal with optional fractional part, as a rational. -/
def parseUnsignedRat (cs : List Char) : Option Rat :=
  match splitDot cs with
  | (a, none) => (parseDigits a).map (fun n => (n : Rat))
  | (a, some b) =>
      if (a ≠ [] ∨ b ≠ []) ∧ a.all Char.isDigit ∧ b.all Char.isDigit then
        some ((digitsVal a : Rat) + (digitsVal b : Rat) / (10 : Rat) ^ b.length)
      else none

/-- pydantic v2 lax str-to-float: optionally signed decimal literal,
surrounding whitespace allowed. -/
def parseRatString (s : String) : Option Rat :=
  match trimChars s.data with
  | '+' :: cs => parseUnsignedRat cs
  | '-' :: cs => (parseUnsignedRat cs).map (fun q => -q)
  | cs => parseUnsignedRat cs

def lowerStr (s : String) : String := String.mk (s.data.map Char.toLower)

/-- pydantic v2 lax str-to-bool spellings (case-insensitive, trimmed). -/
def strToBool (s : String) : Option Bool :=
  let t := lowerStr (String.mk (trimChars s.data))
  if t = "true" ∨ t = "t" ∨ t = "yes" ∨ t = "y" ∨ t = "on" ∨ t = "1" then some true
  else if t = "false" ∨ t = "f" ∨ t = "no" ∨ t = "n" ∨ t = "off" ∨ t = "0" then some false
  else none

/-- Error-accumulating applicative combination: both argument errors are
kept, in order (pydantic collects all field errors, not just the first). -/
def vApp (f : Except (List ValErrorItem) (α → β)) (x : Except (List ValErrorItem) α) :
    Except (List ValErrorItem) β :=
  match f, x with
  | .ok g, .ok a => .ok (g a)
  | .error es, .error es' => .error (es ++ es')
  | .error es, .ok _ => .error es
  | .ok _, .error es => .error es

/-- Prefix every error location with `pre` (errors inside nested models
and sequence elements carry the enclosing path). -/
def withPrefix (pre : List String) :
    Except (List ValErrorItem) α → Except (List ValErrorItem) α
  | .ok a => .ok a
  | .error es => .error (es.map (fun e => { e with loc := pre ++ e.loc }))

/-- Required `str` field. -/
def vReqStr (loc : List String) : Option Json → Except (List ValErrorItem) String
  | some (.str s) => .ok s
  | some v => .error [⟨loc, "string_type", v⟩]
  | none => .error [⟨loc, "missing", .null⟩]

/-- Required `str` field with `min_length=n`. -/
def vReqStrMin (loc : List String) (n : Nat) :
    Option Json → Except (List ValErrorItem) String
  | some (.str s) =>
      if n ≤ s.length then .ok s else .error [⟨loc, "string_too_short", .str s⟩]
  | some v => .error [⟨loc, "string_type", v⟩]
  | none => .error [⟨loc, "missing", .null⟩]

/-- Required `str` field with `pattern=...` (`p` decides whether the
regex accepts the string). -/
def vReqStrPat (loc : List String) (p : String → Bool) :
    Option Json → Except (List ValErrorItem) String
  | some (.str s) =>
      if p s then .ok s else .error [⟨loc, "string_pattern_mismatch", .str s⟩]
  | some v => .error [⟨loc, "string_type", v⟩]
  | none => .error [⟨loc, "missing", .null⟩]

/-- `Optional[str] = None` field: absent or null yields None. -/
def vOptStr (loc : List String) : Option Json → Except (List ValErrorItem) (Option String)
  | none => .ok none
  | some .null => .ok none
  | some (.str s) => .ok (some s)
  | some v => .error [⟨loc, "string_type", v⟩]

/-- `str` field with a default string (used by the timestamp
`default_factory` fields, the default being the produced timestamp). -/
def vStrDefault (loc : List String) (d : String) :
    Option Json → Except (List ValErrorItem) String
  | none => .ok d
  | some (.str s) => .ok s
  | some v => .error [⟨loc, "string_type", v⟩]

/-- Required `int` field, pydantic v2 lax: ints, integral floats and
integer-literal strings are accepted; bools are rejected. -/
def vReqInt (loc : List String) : Option Json → Except (List ValErrorItem) Int
  | some (.int n) => .ok n
  | some (.bool b) => .error [⟨loc, "int_type", .bool b⟩]
  | some (.num q) =>
      if q.den = 1 then .ok q.num else .error [⟨loc, "int_from_float", .num q⟩]
  | some (.str s) =>
      match parseIntString s with
      | some n => .ok n
      | none => .error [⟨loc, "int_parsing", .str s⟩]
  | some v => .error [⟨loc, "int_type", v⟩]
  | none => .error [⟨loc, "missing", .null⟩]

/-- `int` field with a literal default (`links_extracted: int = 0`). -/
def vIntDefault (loc : List String) (d : Int) :
    Option Json → Except (List ValErrorItem) Int
  | none => .ok d
  | some v => vReqInt loc (some v)

/-- Required `float` field, pydantic v2 lax: floats, ints and numeric
strings are accepted; bools are rejected. -/
def vReqFloat (loc : List String) : Option Json → Except (List ValErrorItem) Rat
  | some (.num q) => .ok q
  | some (.int n) => .ok (n : Rat)
  | some (.bool b) => .error [⟨loc, "float_type", .bool b⟩]
  | some (.str s) =>
      match parseRatString s with
      | some q => .ok q
      | none => .error [⟨loc, "float_parsing", .str s⟩]
  | some v => .error [⟨loc, "float_type", v⟩]
  | none => .error [⟨loc, "missing", .null⟩]

/-- Required `bool` field, pydantic v2 lax. -/
def vReqBool (loc : List String) : Option Json → Except (List ValErrorItem) Bool
  | some (.bool b) => .ok b
  | some (.int n) =>
      if n = 0 then .ok false
      else if n = 1 then .ok true
      else .error [⟨loc, "bool_parsing", .int n⟩]
  | some (.num q) =>
      if q = 0 then .ok false
      else if q = 1 then .ok true
      else .error [⟨loc, "bool_parsing", .num q⟩]
  | some (.str s) =>
      match strToBool s with
      | some b => .ok b
      | none => .error [⟨loc, "bool_parsing", .str s⟩]
  | some v => .error [⟨loc, "bool_type", v⟩]
  | none => .error [⟨loc, "missing", .null⟩]

/-- A sequence element that must be a string (`List[str]` elements). -/
def vStrElem : Json → Except (List ValErrorItem) String
  | .str s => .ok s
  | v => .error [⟨[], "string_type", v⟩]

/-- Validate the elements of a sequence, indexing error locations and
collecting the errors of every element. -/
def vElems (pre : List String) (g : Json → Except (List ValErrorItem) α) :
    Nat → List Json → Except (List ValErrorItem) (List α)
  | _, [] => .ok []
  | i, x :: xs =>
      vApp (vApp (.ok List.cons) (withPrefix (pre ++ [toString i]) (g x)))
        (vElems pre g (i + 1) xs)

/-- `List[str] = Field(default_factory=list)`: absent yields `[]`. -/
def vListStrDefault (loc : List String) :
    Option Json → Except (List ValErrorItem) (List String)
  | none => .ok []
  | some (.arr xs) => vElems loc vStrElem 0 xs
  | some v => .error [⟨loc, "list_type", v⟩]

/-- A sequence element that must be a nested model object. -/
def vModelElem (f : List (String × Json) → Except (List ValErrorItem) α) :
    Json → Except (List ValErrorItem) α
  | .obj fs => f fs
  | v => .error [⟨[], "model_type", v⟩]

/-- Required nested-model field. -/
def vReqModel (loc : List String)
    (f : List (String × Json) → Except (List ValErrorItem) α) :
    Option Json → Except (List ValErrorItem) α
  | some (.obj fs) => withPrefix loc (f fs)
  | some v => .error [⟨loc, "model_type", v⟩]
  | none => .error [⟨loc, "missing", .null⟩]

/-- `Optional[Model] = None` field. -/
def vOptModel (loc : List String)
    (f : List (String × Json) → Except (List ValErrorItem) α) :
    Option Json → Except (List ValErrorItem) (Option α)
  | none => .ok none
  | some .null => .ok none
  | some (.obj fs) => Except.map some (withPrefix loc (f fs))
  | some v => .error [⟨loc, "model_type", v⟩]

/-- `Optional[List[Model]] = Field(default_factory=list)`: the default
applies only when the field is absent; an explicit null is a legitimate
value of the Optional type and is kept as None. -/
def vOptListModel (loc : List String)
    (f : List (String × Json) → Except (List ValErrorItem) α) :
    Option Json → Except (List ValErrorItem) (Option (List α))
  | none => .ok (some [])
  | some .null => .ok none
  | some (.arr xs) => Except.map some (vElems loc (vModelElem f) 0 xs)
  | some v => .error [⟨loc, "list_type", v⟩]

/-- `List[Model] = Field(default_factory=list)` (non-Optional): absent
yields `[]`, null is rejected. -/
def vListModelDefault (loc : List String)
    (f : List (String × Json) → Except (List ValErrorItem) α) :
    Option Json → Except (List ValErrorItem) (List α)
  | none => .ok []
  | some (.arr xs) => vElems loc (vModelElem f) 0 xs
  | some v => .error [⟨loc, "list_type", v⟩]

/-! ## The schema records and their validators -/

/-- `text: str = Field(..., min_length=1)`; `title: Optional[str] = None`. -/
structure TextProcessRequest where
  text : String
  title : Option String
deriving DecidableEq

def validateTextProcessRequest (m : List (String × Json)) :
    Except (List ValErrorItem) TextProcessRequest :=
  vApp (vApp (.ok TextProcessRequest.mk)
    (vReqStrMin ["text"] 1 (getField m "text")))
    (vOptStr ["title"] (getField m "title"))

/-- Embeds the anchored regex `^(user|assistant)$` of the `role` field:
it accepts exactly the two literal strings. -/
def rolePattern (s : String) : Bool :=
  decide (s = "user" ∨ s = "assistant")

/-- `role: str = Field(..., pattern="^(user|assistant)$")`; `content: str`. -/
structure ChatMessage where
  role : String
  content : String
deriving DecidableEq

def validateChatMessage (m : List (String × Json)) :
    Except (List ValErrorItem) ChatMessage :=
  vApp (vApp (.ok ChatMessage.mk)
    (vReqStrPat ["role"] rolePattern (getField m "role")))
    (vReqStr ["content"] (getField m "content"))

/-- `success: bool; document_id: str; title: str; chunks_created: int;
links_extracted: int = 0; images_extracted: int = 0;
processing_time_ms: float` — plain annotations, no range constraints. -/
structure DocumentUploadResponse where
  success : Bool
  document_id : String
  title : String
  chunks_created : Int
  links_extracted : Int
  images_extracted : Int
  processing_time_ms : Rat
deriving DecidableEq

def validateDocumentUploadResponse (m : List (String × Json)) :
    Except (List ValErrorItem) DocumentUploadResponse :=
  vApp (vApp (vApp (vApp (vApp (vApp (vApp (.ok DocumentUploadResponse.mk)
    (vReqBool ["success"] (getField m "success")))
    (vReqStr ["document_id"] (getField m "document_id")))
    (vReqStr ["title"] (getField m "title")))
    (vReqInt ["chunks_created"] (getField m "chunks_created")))
    (vIntDefault ["links_extracted"] 0 (getField m "links_extracted")))
    (vIntDefault ["images_extracted"] 0 (getField m "images_extracted")))
    (vReqFloat ["processing_time_ms"] (getField m "processing_time_ms"))

/-- `query: str = Field(..., min_length=1)`; `session_id: Optional[str]`;
`chat_history: Optional[List[ChatMessage]] = Field(default_factory=list)`. -/
structure QueryRequest where
  query : String
  session_id : Option String
  chat_history : Option (List ChatMessage)
deriving DecidableEq

def validateQueryRequest (m : List (String × Json)) :
    Except (List ValErrorItem) QueryRequest :=
  vApp (vApp (vApp (.ok QueryRequest.mk)
    (vReqStrMin ["query"] 1 (getField m "query")))
    (vOptStr ["session_id"] (getField m "session_id")))
    (vOptListModel ["chat_history"] validateChatMessage (getField m "chat_history"))

/-- `id: int` (plain annotation: no positivity, uniqueness or density
constraint is declared); string/list/float payload fields. -/
structure SourceReference where
  id : Int
  text : String
  document : String
  links : List String
  images : List String
  score : Rat
  chunk_id : Option String
  «section» : Option String
deriving DecidableEq

def validateSourceReference (m : List (String × Json)) :
    Except (List ValErrorItem) SourceReference :=
  vApp (vApp (vApp (vApp (vApp (vApp (vApp (vApp (.ok SourceReference.mk)
    (vReqInt ["id"] (getField m "id")))
    (vReqStr ["text"] (getField m "text")))
    (vReqStr ["document"] (getField m "document")))
    (vListStrDefault ["links"] (getField m "links")))
    (vListStrDefault ["images"] (getField m "images")))
    (vReqFloat ["score"] (getField m "score")))
    (vOptStr ["chunk_id"] (getField m "chunk_id")))
    (vOptStr ["section"] (getField m "section"))

/-- Four required plain floats. -/
structure TimingInfo where
  retrieval_ms : Rat
  rerank_ms : Rat
  llm_ms : Rat
  total_ms : Rat
deriving DecidableEq

def validateTimingInfo (m : List (String × Json)) :
    Except (List ValErrorItem) TimingInfo :=
  vApp (vApp (vApp (vApp (.ok TimingInfo.mk)
    (vReqFloat ["retrieval_ms"] (getField m "retrieval_ms")))
    (vReqFloat ["rerank_ms"] (getField m "rerank_ms")))
    (vReqFloat ["llm_ms"] (getField m "llm_ms")))
    (vReqFloat ["total_ms"] (getField m "total_ms"))

/-- `prompt_tokens, completion_tokens, total_tokens: int;
estimated_cost_usd: float` — plain annotations; the model declares no
validator relating `total_tokens` to the other two fields. -/
structure TokenUsage where
  prompt_tokens : Int
  completion_tokens : Int
  total_tokens : Int
  estimated_cost_usd : Rat
deriving DecidableEq

def validateTokenUsage (m : List (String × Json)) :
    Except (List ValErrorItem) TokenUsage :=
  vApp (vApp (vApp (vApp (.ok TokenUsage.mk)
    (vReqInt ["prompt_tokens"] (getField m "prompt_tokens")))
    (vReqInt ["completion_tokens"] (getField m "completion_tokens")))
    (vReqInt ["total_tokens"] (getField m "total_tokens")))
    (vReqFloat ["estimated_cost_usd"] (getField m "estimated_cost_usd"))

/-- `answer: str; sources: List[SourceReference] = Field(default_factory=list);
has_context: bool; general_answer: Optional[str] = None; timing: TimingInfo;
token_usage: Optional[TokenUsage] = None; session_id: Optional[str] = None`. -/
structure QueryResponse where
  answer : String
  sources : List SourceReference
  has_context : Bool
  general_answer : Option String
  timing : TimingInfo
  token_usage : Option TokenUsage
  session_id : Option String
deriving DecidableEq

def validateQueryResponse (m : List (String × Json)) :
    Except (List ValErrorItem) QueryResponse :=
  vApp (vApp (vApp (vApp (vApp (vApp (vApp (.ok QueryResponse.mk)
    (vReqStr ["answer"] (getField m "answer")))
    (vListModelDefault ["sources"] validateSourceReference (getField m "sources")))
    (vReqBool ["has_context"] (getField m "has_context")))
    (vOptStr ["general_answer"] (getField m "general_answer")))
    (vReqModel ["timing"] validateTimingInfo (getField m "timing")))
    (vOptModel ["token_usage"] validateTokenUsage (getField m "token_usage")))
    (vOptStr ["session_id"] (getField m "session_id"))

/-- Chunk provenance; `created_at` defaults to the creation-time
timestamp (the `now` argument of the validator). -/
structure ChunkMetadata where
  source : String
  title : String
  «section» : Option String
  chunk_id : String
  links : List String
  images : List String
  created_at : String
deriving DecidableEq

def validateChunkMetadata (now : String) (m : List (String × Json)) :
    Except (List ValErrorItem) ChunkMetadata :=
  vApp (vApp (vApp (vApp (vApp (vApp (vApp (.ok ChunkMetadata.mk)
    (vReqStr ["source"] (getField m "source")))
    (vReqStr ["title"] (getField m "title")))
    (vOptStr ["section"] (getField m "section")))
    (vReqStr ["chunk_id"] (getField m "chunk_id")))
    (vListStrDefault ["links"] (getField m "links")))
    (vListStrDefault ["images"] (getField m "images")))
    (vStrDefault ["created_at"] now (getField m "created_at"))

/-- Pre-reranking retrieved chunk: `chunk_id, text: str; score: float;
metadata: ChunkMetadata`. -/
structure RetrievedChunk where
  chunk_id : String
  text : String
  score : Rat
  metadata : ChunkMetadata
deriving DecidableEq

def validateRetrievedChunk (now : String) (m : List (String × Json)) :
    Except (List ValErrorItem) RetrievedChunk :=
  vApp (vApp (vApp (vApp (.ok RetrievedChunk.mk)
    (vReqStr ["chunk_id"] (getField m "chunk_id")))
    (vReqStr ["text"] (getField m "text")))
    (vReqFloat ["score"] (getField m "score")))
    (vReqModel ["metadata"] (validateChunkMetadata now) (getField m "metadata"))

/-- Post-reranking chunk: reranker `score` plus preserved `original_score`. -/
structure RerankedChunk where
  chunk_id : String
  text : String
  score : Rat
  original_score : Rat
  metadata : ChunkMetadata
deriving DecidableEq

def validateRerankedChunk (now : String) (m : List (String × Json)) :
    Except (List ValErrorItem) RerankedChunk :=
  vApp (vApp (vApp (vApp (vApp (.ok RerankedChunk.mk)
    (vReqStr ["chunk_id"] (getField m "chunk_id")))
    (vReqStr ["text"] (getField m "text")))
    (vReqFloat ["score"] (getField m "score")))
    (vReqFloat ["original_score"] (getField m "original_score")))
    (vReqModel ["metadata"] (validateChunkMetadata now) (getField m "metadata"))

/-- `status: str`; three required bools; `timestamp` defaults to the
check-time timestamp (the `now` argument of the validator). -/
structure HealthResponse where
  status : String
  qdrant_connected : Bool
  openai_configured : Bool
  cohere_configured : Bool
  timestamp : String
deriving DecidableEq

def validateHealthResponse (now : String) (m : List (String × Json)) :
    Except (List ValErrorItem) HealthResponse :=
  vApp (vApp (vApp (vApp (vApp (.ok HealthResponse.mk)
    (vReqStr ["status"] (getField m "status")))
    (vReqBool ["qdrant_connected"] (getField m "qdrant_connected")))
    (vReqBool ["openai_configured"] (getField m "openai_configured")))
    (vReqBool ["cohere_configured"] (getField m "cohere_configured")))
    (vStrDefault ["timestamp"] now (getField m "timestamp"))

/-! ## Helper lemmas about the field combinators -/

/-- The error list of a field result (empty on success). -/
def errs : Except (List ValErrorItem) α → List ValErrorItem
  | .ok _ => []
  | .error es => es

/-!
Input-shape discriminators: for each field kind, the raw-input shapes the
lax conversion table accepts.  They classify the JSON-decoded value that
was (or was not) supplied for one field, so that "field violated" can be
stated about the raw input itself, independently of the validators.
-/

/-- A required `str` field is satisfied: a string was supplied. -/
def isStrVal : Option Json → Bool
  | some (.str _) => true
  | _ => false

/-- A `str` field with `min_length=n` is satisfied. -/
def isStrMinVal (n : Nat) : Option Json → Bool
  | some (.str s) => decide (n ≤ s.length)
  | _ => false

/-- A `str` field with a pattern is satisfied. -/
def isStrPatVal (p : String → Bool) : Option Json → Bool
  | some (.str s) => p s
  | _ => false

/-- An `Optional[str]` field is satisfied: absent, null, or a string. -/
def isOptStrVal : Option Json → Bool
  | none => true
  | some .null => true
  | some (.str _) => true
  | _ => false

/-- A defaulted (non-Optional) `str` field is satisfied: absent or a string. -/
def isStrDefaultVal : Option Json → Bool
  | none => true
  | some (.str _) => true
  | _ => false

/-- A supplied value acceptable for an `int` field in lax mode. -/
def isIntJson : Json → Bool
  | .int _ => true
  | .num q => decide (q.den = 1)
  | .str s => (parseIntString s).isSome
  | _ => false

/-- A required `int` field is satisfied. -/
def isIntVal : Option Json → Bool
  | none => false
  | some v => isIntJson v

/-- A defaulted `int` field is satisfied: absent or an acceptable value. -/
def isIntDefaultVal : Option Json → Bool
  | none => true
  | some v => isIntJson v

/-- A supplied value acceptable for a `float` field in lax mode. -/
def isFloatJson : Json → Bool
  | .num _ => true
  | .int _ => true
  | .str s => (parseRatString s).isSome
  | _ => false

/-- A required `float` field is satisfied. -/
def isFloatVal : Option Json → Bool
  | none => false
  | some v => isFloatJson v

/-- A supplied value acceptable for a `bool` field in lax mode. -/
def isBoolJson : Json → Bool
  | .bool _ => true
  | .int n => decide (n = 0 ∨ n = 1)
  | .num q => decide (q = 0 ∨ q = 1)
  | .str s => (strToBool s).isSome
  | _ => false

/-- A required `bool` field is satisfied. -/
def isBoolVal : Option Json → Bool
  | none => false
  | some v => isBoolJson v

/-- A defaulted sequence field is satisfied at the field level: absent or
a sequence (element errors are indexed separately). -/
def isListDefaultVal : Option Json → Bool
  | none => true
  | some (.arr _) => true
  | _ => false

/-- An `Optional` defaulted sequence field is satisfied at the field
level: absent, null, or a sequence. -/
def isOptListVal : Option Json → Bool
  | none => true
  | some .null => true
  | some (.arr _) => true
  | _ => false

/-- A required nested-model field is satisfied at the field level: an
object was supplied (errors inside it are prefixed separately). -/
def isModelVal : Option Json → Bool
  | some (.obj _) => true
  | _ => false

/-- An `Optional` nested-model field is satisfied at the field level. -/
def isOptModelVal : Option Json → Bool
  | none => true
  | some .null => true
  | some (.obj _) => true
  | _ => false

/-!
The offending value and the violated rule reported for a field-level
violation, as functions of the raw value supplied for the field.
-/

/-- The offending value reported for a violated field: the supplied
value, or null when the field was absent. -/
def offendingInput : Option Json → Json
  | none => .null
  | some v => v

/-- Rule violated by a required `str` field. -/
def reqStrRule : Option Json → String
  | none => "missing"
  | _ => "string_type"

/-- Rule violated by a `min_length` `str` field. -/
def reqStrMinRule : Option Json → String
  | none => "missing"
  | some (.str _) => "string_too_short"
  | _ => "string_type"

/-- Rule violated by a pattern-constrained `str` field. -/
def reqStrPatRule : Option Json → String
  | none => "missing"
  | some (.str _) => "string_pattern_mismatch"
  | _ => "string_type"

/-- Rule violated by a supplied-but-unacceptable `int` value. -/
def intValRule : Json → String
  | .num _ => "int_from_float"
  | .str _ => "int_parsing"
  | _ => "int_type"

/-- Rule violated by a required `int` field. -/
def reqIntRule : Option Json → String
  | none => "missing"
  | some v => intValRule v

/-- Rule violated by a supplied-but-unacceptable `float` value. -/
def floatValRule : Json → String
  | .str _ => "float_parsing"
  | _ => "float_type"

/-- Rule violated by a required `float` field. -/
def reqFloatRule : Option Json → String
  | none => "missing"
  | some v => floatValRule v

/-- Rule violated by a supplied-but-unacceptable `bool` value. -/
def boolValRule : Json → String
  | .int _ => "bool_parsing"
  | .num _ => "bool_parsing"
  | .str _ => "bool_parsing"
  | _ => "bool_type"

/-- Rule violated by a required `bool` field. -/
def reqBoolRule : Option Json → String
  | none => "missing"
  | some v => boolValRule v

/-- Rule violated by a required nested-model field. -/
def reqModelRule : Option Json → String
  | none => "missing"
  | _ => "model_type"

/-!
Concrete all-fields-violated inputs, one per schema, and the error lists
their validation produces. Used to exercise the error-collection theorem.
-/

def c1wTPR : List (String × Json) := [("text", .arr []), ("title", .arr [])]

def c1wTPRerrs : List ValErrorItem :=
  [⟨["text"], "string_type", .arr []⟩, ⟨["title"], "string_type", .arr []⟩]

def c1wDUR : List (String × Json) :=
  [("success", .arr []), ("document_id", .arr []), ("title", .arr []),
   ("chunks_created", .arr []), ("links_extracted", .arr []),
   ("images_extracted", .arr []), ("processing_time_ms", .arr [])]

def c1wDURerrs : List ValErrorItem :=
  [⟨["success"], "bool_type", .arr []⟩, ⟨["document_id"], "string_type", .arr []⟩,
   ⟨["title"], "string_type", .arr []⟩, ⟨["chunks_created"], "int_type", .arr []⟩,
   ⟨["links_extracted"], "int_type", .arr []⟩,
   ⟨["images_extracted"], "int_type", .arr []⟩,
   ⟨["processing_time_ms"], "float_type", .arr []⟩]

def c1wCM : List (String × Json) := [("role", .arr []), ("content", .arr [])]

def c1wCMerrs : List ValErrorItem :=
  [⟨["role"], "string_type", .arr []⟩, ⟨["content"], "string_type", .arr []⟩]

def c1wQReq : List (String × Json) :=
  [("query", .arr []), ("session_id", .arr []), ("chat_history", .int 0)]

def c1wQReqErrs : List ValErrorItem :=
  [⟨["query"], "string_type", .arr []⟩, ⟨["session_id"], "string_type", .arr []⟩,
   ⟨["chat_history"], "list_type", .int 0⟩]

def c1wSR : List (String × Json) :=
  [("id", .arr []), ("text", .arr []), ("document", .arr []), ("links", .int 0),
   ("images", .int 0), ("score", .arr []), ("chunk_id", .arr []), ("section", .arr [])]

def c1wSRerrs : List ValErrorItem :=
  [⟨["id"], "int_type", .arr []⟩, ⟨["text"], "string_type", .arr []⟩,
   ⟨["document"], "string_type", .arr []⟩, ⟨["links"], "list_type", .int 0⟩,
   ⟨["images"], "list_type", .int 0⟩, ⟨["score"], "float_type", .arr []⟩,
   ⟨["chunk_id"], "string_type", .arr []⟩, ⟨["section"], "string_type", .arr []⟩]

def c1wTI : List (String × Json) :=
  [("retrieval_ms", .arr []), ("rerank_ms", .arr []), ("llm_ms", .arr []),
   ("total_ms", .arr [])]

def c1wTIerrs : List ValErrorItem :=
  [⟨["retrieval_ms"], "float_type", .arr []⟩, ⟨["rerank_ms"], "float_type", .arr []⟩,
   ⟨["llm_ms"], "float_type", .arr []⟩, ⟨["total_ms"], "float_type", .arr []⟩]

def c1wTU : List (String × Json) :=
  [("prompt_tokens", .arr []), ("completion_tokens", .arr []),
   ("total_tokens", .arr []), ("estimated_cost_usd", .arr [])]

def c1wTUerrs : List ValErrorItem :=
  [⟨["prompt_tokens"], "int_type", .arr []⟩,
   ⟨["completion_tokens"], "int_type", .arr []⟩,
   ⟨["total_tokens"], "int_type", .arr []⟩,
   ⟨["estimated_cost_usd"], "float_type", .arr []⟩]

def c1wQResp : List (String × Json) :=
  [("answer", .arr []), ("sources", .int 0), ("has_context", .arr []),
   ("general_answer", .arr []), ("timing", .int 0), ("token_usage", .int 0),
   ("session_id", .arr [])]

def c1wQRespErrs : List ValErrorItem :=
  [⟨["answer"], "string_type", .arr []⟩, ⟨["sources"], "list_type", .int 0⟩,
   ⟨["has_context"], "bool_type", .arr []⟩,
   ⟨["general_answer"], "string_type", .arr []⟩,
   ⟨["timing"], "model_type", .int 0⟩, ⟨["token_usage"], "model_type", .int 0⟩,
   ⟨["session_id"], "string_type", .arr []⟩]

def c1wChM : List (String × Json) :=
  [("source", .arr []), ("title", .arr []), ("section", .arr []),
   ("chunk_id", .arr []), ("links", .int 0), ("images", .int 0),
   ("created_at", .arr [])]

def c1wChMerrs : List ValErrorItem :=
  [⟨["source"], "string_type", .arr []⟩, ⟨["title"], "string_type", .arr []⟩,
   ⟨["section"], "string_type", .arr []⟩, ⟨["chunk_id"], "string_type", .arr []⟩,
   ⟨["links"], "list_type", .int 0⟩, ⟨["images"], "list_type", .int 0⟩,
   ⟨["created_at"], "string_type", .arr []⟩]

def c1wRetC : List (String × Json) :=
  [("chunk_id", .arr []), ("text", .arr []), ("score", .arr []), ("metadata", .int 0)]

def c1wRetCerrs : List ValErrorItem :=
  [⟨["chunk_id"], "string_type", .arr []⟩, ⟨["text"], "string_type", .arr []⟩,
   ⟨["score"], "float_type", .arr []⟩, ⟨["metadata"], "model_type", .int 0⟩]

def c1wRerC : List (String × Json) :=
  [("chunk_id", .arr []), ("text", .arr []), ("score", .arr []),
   ("original_score", .arr []), ("metadata", .int 0)]

def c1wRerCerrs : List ValErrorItem :=
  [⟨["chunk_id"], "string_type", .arr []⟩, ⟨["text"], "string_type", .arr []⟩,
   ⟨["score"], "float_type", .arr []⟩, ⟨["original_score"], "float_type", .arr []⟩,
   ⟨["metadata"], "model_type", .int 0⟩]

def c1wHR : List (String × Json) :=
  [("status", .arr []), ("qdrant_connected", .arr []),
   ("openai_configured", .arr []), ("cohere_configured", .arr []),
   ("timestamp", .arr [])]

def c1wHRerrs : List ValErrorItem :=
  [⟨["status"], "string_type", .arr []⟩, ⟨["qdrant_connected"], "bool_type", .arr []⟩,
   ⟨["openai_configured"], "bool_type", .arr []⟩,
   ⟨["cohere_configured"], "bool_type", .arr []⟩,
   ⟨["timestamp"], "string_type", .arr []⟩]

theorem errs_ok (a : α) :
    errs (Except.ok a : Except (List ValErrorItem) α) = [] := rfl

theorem errs_vApp (F : Except (List ValErrorItem) (α → β))
    (x : Except (List ValErrorItem) α) :
    errs (vApp F x) = errs F ++ errs x := by
  cases F <;> cases x <;> simp [vApp, errs]

theorem vApp2_ok_iff {γ : Type} {f : α → β → γ}
    {a : Except (List ValErrorItem) α} {b : Except (List ValErrorItem) β} :
    (∃ r, vApp (vApp (.ok f) a) b = .ok r) ↔
      (∃ x, a = .ok x) ∧ (∃ y, b = .ok y) := by
  cases a <;> cases b <;> simp [vApp]

theorem vReqStr_err_spec (loc : List String) (o : Option Json)
    (h : isStrVal o = false) :
    ∃ e ∈ errs (vReqStr loc o),
      e.loc = loc ∧ e.type = reqStrRule o ∧ e.input = offendingInput o := by
  unfold vReqStr
  split
  · simp [isStrVal] at h
  · rename_i v hne
    cases v <;> simp_all [errs, isStrVal, reqStrRule, offendingInput]
  · simp [errs, reqStrRule, offendingInput]

theorem vReqStrMin_err_spec (loc : List String) (n : Nat) (o : Option Json)
    (h : isStrMinVal n o = false) :
    ∃ e ∈ errs (vReqStrMin loc n o),
      e.loc = loc ∧ e.type = reqStrMinRule o ∧ e.input = offendingInput o := by
  unfold vReqStrMin
  split
  · rename_i s
    split
    · rename_i hlen
      simp [isStrMinVal, hlen] at h
    · simp [errs, reqStrMinRule, offendingInput]
  · rename_i v hne
    cases v <;> simp_all [errs, isStrMinVal, reqStrMinRule, offendingInput]
  · simp [errs, reqStrMinRule, offendingInput]

theorem vReqStrPat_err_spec (loc : List String) (p : String → Bool) (o : Option Json)
    (h : isStrPatVal p o = false) :
    ∃ e ∈ errs (vReqStrPat loc p o),
      e.loc = loc ∧ e.type = reqStrPatRule o ∧ e.input = offendingInput o := by
  unfold vReqStrPat
  split
  · rename_i s
    split
    · rename_i hp
      simp [isStrPatVal, hp] at h
    · simp [errs, reqStrPatRule, offendingInput]
  · rename_i v hne
    cases v <;> simp_all [errs, isStrPatVal, reqStrPatRule, offendingInput]
  · simp [errs, reqStrPatRule, offendingInput]

theorem vOptStr_err_spec (loc : List String) (o : Option Json)
    (h : isOptStrVal o = false) :
    ∃ e ∈ errs (vOptStr loc o),
      e.loc = loc ∧ e.type = "string_type" ∧ e.input = offendingInput o := by
  unfold vOptStr
  split
  · simp [isOptStrVal] at h
  · simp [isOptStrVal] at h
  · simp [isOptStrVal] at h
  · rename_i v hnull hstr
    cases v <;> simp_all [errs, isOptStrVal, offendingInput]

theorem vStrDefault_err_spec (loc : List String) (d : String) (o : Option Json)
    (h : isStrDefaultVal o = false) :
    ∃ e ∈ errs (vStrDefault loc d o),
      e.loc = loc ∧ e.type = "string_type" ∧ e.input = offendingInput o := by
  unfold vStrDefault
  split
  · simp [isStrDefaultVal] at h
  · simp [isStrDefaultVal] at h
  · rename_i v hne
    cases v <;> simp_all [errs, isStrDefaultVal, offendingInput]

theorem vReqInt_err_spec (loc : List String) (o : Option Json)
    (h : isIntVal o = false) :
    ∃ e ∈ errs (vReqInt loc o),
      e.loc = loc ∧ e.type = reqIntRule o ∧ e.input = offendingInput o := by
  unfold vReqInt
  split
  · simp [isIntVal, isIntJson] at h
  · simp [errs, reqIntRule, intValRule, offendingInput]
  · rename_i q
    split
    · rename_i hden
      simp [isIntVal, isIntJson, hden] at h
    · simp [errs, reqIntRule, intValRule, offendingInput]
  · rename_i s
    cases hp : parseIntString s with
    | some n => simp [isIntVal, isIntJson, hp] at h
    | none => simp [hp, errs, reqIntRule, intValRule, offendingInput]
  · rename_i v h1 h2 h3 h4
    cases v <;> simp_all [errs, isIntVal, isIntJson, reqIntRule, intValRule,
      offendingInput]
  · simp [errs, reqIntRule, offendingInput]

theorem vIntDefault_err_spec (loc : List String) (d : Int) (o : Option Json)
    (h : isIntDefaultVal o = false) :
    ∃ e ∈ errs (vIntDefault loc d o),
      e.loc = loc ∧ e.type = reqIntRule o ∧ e.input = offendingInput o := by
  cases o with
  | none => simp [isIntDefaultVal] at h
  | some v => exact vReqInt_err_spec loc (some v) h

theorem vReqFloat_err_spec (loc : List String) (o : Option Json)
    (h : isFloatVal o = false) :
    ∃ e ∈ errs (vReqFloat loc o),
      e.loc = loc ∧ e.type = reqFloatRule o ∧ e.input = offendingInput o := by
  unfold vReqFloat
  split
  · simp [isFloatVal, isFloatJson] at h
  · simp [isFloatVal, isFloatJson] at h
  · simp [errs, reqFloatRule, floatValRule, offendingInput]
  · rename_i s
    cases hp : parseRatString s with
    | some q => simp [isFloatVal, isFloatJson, hp] at h
    | none => simp [hp, errs, reqFloatRule, floatValRule, offendingInput]
  · rename_i v h1 h2 h3 h4
    cases v <;> simp_all [errs, isFloatVal, isFloatJson, reqFloatRule, floatValRule,
      offendingInput]
  · simp [errs, reqFloatRule, offendingInput]

theorem vReqBool_err_spec (loc : List String) (o : Option Json)
    (h : isBoolVal o = false) :
    ∃ e ∈ errs (vReqBool loc o),
      e.loc = loc ∧ e.type = reqBoolRule o ∧ e.input = offendingInput o := by
  unfold vReqBool
  split
  · simp [isBoolVal, isBoolJson] at h
  · rename_i n
    split
    · rename_i h0
      simp [isBoolVal, isBoolJson, h0] at h
    · split
      · rename_i h1
        simp [isBoolVal, isBoolJson, h1] at h
      · simp [errs, reqBoolRule, boolValRule, offendingInput]
  · rename_i q
    split
    · rename_i h0
      simp [isBoolVal, isBoolJson, h0] at h
    · split
      · rename_i h1
        simp [isBoolVal, isBoolJson, h1] at h
      · simp [errs, reqBoolRule, boolValRule, offendingInput]
  · rename_i s
    cases hb : strToBool s with
    | some b => simp [isBoolVal, isBoolJson, hb] at h
    | none => simp [hb, errs, reqBoolRule, boolValRule, offendingInput]
  · rename_i v h1 h2 h3 h4
    cases v <;> simp_all [errs, isBoolVal, isBoolJson, reqBoolRule, boolValRule,
      offendingInput]
  · simp [errs, reqBoolRule, offendingInput]

theorem vListStrDefault_err_spec (loc : List String) (o : Option Json)
    (h : isListDefaultVal o = false) :
    ∃ e ∈ errs (vListStrDefault loc o),
      e.loc = loc ∧ e.type = "list_type" ∧ e.input = offendingInput o := by
  unfold vListStrDefault
  split
  · simp [isListDefaultVal] at h
  · simp [isListDefaultVal] at h
  · rename_i v hne
    cases v <;> simp_all [errs, isListDefaultVal, offendingInput]

theorem vListModelDefault_err_spec {α : Type} (loc : List String)
    (f : List (String × Json) → Except (List ValErrorItem) α) (o : Option Json)
    (h : isListDefaultVal o = false) :
    ∃ e ∈ errs (vListModelDefault loc f o),
      e.loc = loc ∧ e.type = "list_type" ∧ e.input = offendingInput o := by
  unfold vListModelDefault
  split
  · simp [isListDefaultVal] at h
  · simp [isListDefaultVal] at h
  · rename_i v hne
    cases v <;> simp_all [errs, isListDefaultVal, offendingInput]

theorem vOptListModel_err_spec {α : Type} (loc : List String)
    (f : List (String × Json) → Except (List ValErrorItem) α) (o : Option Json)
    (h : isOptListVal o = false) :
    ∃ e ∈ errs (vOptListModel loc f o),
      e.loc = loc ∧ e.type = "list_type" ∧ e.input = offendingInput o := by
  unfold vOptListModel
  split
  · simp [isOptListVal] at h
  · simp [isOptListVal] at h
  · simp [isOptListVal] at h
  · rename_i v hnull harr
    cases v <;> simp_all [errs, isOptListVal, offendingInput]

theorem vReqModel_err_spec {α : Type} (loc : List String)
    (f : List (String × Json) → Except (List ValErrorItem) α) (o : Option Json)
    (h : isModelVal o = false) :
    ∃ e ∈ errs (vReqModel loc f o),
      e.loc = loc ∧ e.type = reqModelRule o ∧ e.input = offendingInput o := by
  unfold vReqModel
  split
  · simp [isModelVal] at h
  · rename_i v hne
    cases v <;> simp_all [errs, isModelVal, reqModelRule, offendingInput]
  · simp [errs, reqModelRule, offendingInput]

theorem vOptModel_err_spec {α : Type} (loc : List String)
    (f : List (String × Json) → Except (List ValErrorItem) α) (o : Option Json)
    (h : isOptModelVal o = false) :
    ∃ e ∈ errs (vOptModel loc f o),
      e.loc = loc ∧ e.type = "model_type" ∧ e.input = offendingInput o := by
  unfold vOptModel
  split
  · simp [isOptModelVal] at h
  · simp [isOptModelVal] at h
  · simp [isOptModelVal] at h
  · rename_i v hnull hobj
    cases v <;> simp_all [errs, isOptModelVal, offendingInput]

theorem vReqStrMin_ok_iff (loc : List String) (n : Nat) (o : Option Json) :
    (∃ r, vReqStrMin loc n o = .ok r) ↔
      ∃ s, o = some (Json.str s) ∧ n ≤ s.length := by
  unfold vReqStrMin
  split
  · rename_i s
    split
    · rename_i hlen
      simp
      exact hlen
    · rename_i hlen
      simp
      omega
  · rename_i v hne
    simp
    intro s hs
    exact (hne s hs).elim
  · simp

theorem vOptStr_ok_iff (loc : List String) (o : Option Json) :
    (∃ r, vOptStr loc o = .ok r) ↔
      (o = none ∨ o = some Json.null ∨ ∃ s, o = some (Json.str s)) := by
  unfold vOptStr
  split
  · simp
  · simp
  · rename_i s
    simp
  · rename_i v hnull hstr
    simp
    refine ⟨fun h => ?_, fun s h => ?_⟩
    · exact hnull h
    · exact hstr s h

theorem getField_cons_ne {k f : String} (h : k ≠ f) (v : Json)
    (m : List (String × Json)) :
    getField ((k, v) :: m) f = getField m f := by
  simp [getField, h]

/-! ## The claims -/

/-- C5: `Validate({query: "x"})` for QueryRequest succeeds, with
`chat_history` defaulted to the empty sequence and `session_id` to null. -/
theorem c5_query_defaults :
    validateQueryRequest [("query", Json.str "x")]
      = .ok ⟨"x", none, some []⟩ := rfl

/-- C9 counterexample: an explicit null `chat_history` is NOT treated like
an absent field: validation succeeds but yields `chat_history = null`
(None), not the empty sequence the claim requires. -/
theorem c9_null_not_defaulted :
    validateQueryRequest [("query", Json.str "x"), ("chat_history", Json.null)]
        = .ok ⟨"x", none, none⟩
      ∧ (none : Option (List ChatMessage)) ≠ some [] := ⟨rfl, by simp⟩

/-- C9 (amended): omitting `chat_history` yields the empty-sequence
default, while supplying an explicit null yields null — the two inputs
produce different records. -/
theorem c9_null_vs_absent :
    validateQueryRequest [("query", Json.str "x")] = .ok ⟨"x", none, some []⟩
      ∧ validateQueryRequest [("query", Json.str "x"), ("chat_history", Json.null)]
          = .ok ⟨"x", none, none⟩
      ∧ (some ([] : List ChatMessage)) ≠ none := ⟨rfl, rfl, by simp⟩

/-- C6 counterexample: TokenUsage validation accepts
`prompt_tokens = 1, completion_tokens = 1, total_tokens = 5`,
a record with `total_tokens ≠ prompt_tokens + completion_tokens`. -/
theorem c6_inconsistent_total_accepted :
    validateTokenUsage [("prompt_tokens", Json.int 1),
        ("completion_tokens", Json.int 1), ("total_tokens", Json.int 5),
        ("estimated_cost_usd", Json.num 0)]
      = .ok ⟨1, 1, 5, 0⟩
      ∧ (5 : Int) ≠ 1 + 1 := ⟨rfl, by decide⟩

/-- C6 (amended): the TokenUsage schema performs no cross-field check —
every well-typed triple of token counts is accepted verbatim, whether or
not `total_tokens` equals `prompt_tokens + completion_tokens`. -/
theorem c6_no_cross_field_check (p c t : Int) (cost : Rat) :
    validateTokenUsage [("prompt_tokens", Json.int p),
        ("completion_tokens", Json.int c), ("total_tokens", Json.int t),
        ("estimated_cost_usd", Json.num cost)]
      = .ok ⟨p, c, t, cost⟩ := rfl

/-- C7 counterexample: DocumentUploadResponse validation accepts negative
counts and a negative processing time. -/
theorem c7_negative_counts_accepted :
    validateDocumentUploadResponse [("success", Json.bool true),
        ("document_id", Json.str "d"), ("title", Json.str "t"),
        ("chunks_created", Json.int (-1)), ("links_extracted", Json.int (-2)),
        ("images_extracted", Json.int (-3)),
        ("processing_time_ms", Json.num (-4))]
      = .ok ⟨true, "d", "t", -1, -2, -3, -4⟩
      ∧ ¬ ((0 : Int) ≤ -1) := ⟨rfl, by decide⟩

/-- C3 counterexample: an input supplying a string `text` of length ≥ 1
can still fail validation when `title` carries a non-string value, so
"succeeds iff text is a non-empty string" is not an equivalence over all
raw inputs. -/
theorem c3_title_type_failure :
    (∃ s, getField [("text", Json.str "hi"), ("title", Json.int 5)] "text"
        = some (Json.str s) ∧ 1 ≤ s.length)
      ∧ validateTextProcessRequest [("text", Json.str "hi"), ("title", Json.int 5)]
          = .error [⟨["title"], "string_type", Json.int 5⟩] :=
  ⟨⟨"hi", rfl, by decide⟩, rfl⟩

/-- C3 (amended): TextProcessRequest validation succeeds iff the input
supplies `text` as a string of length ≥ 1 and supplies `title`, if at
all, as null or a string; the input `{text: "", title: "Doc"}` fails
with the minimum-length rule cited on field `text`. -/
theorem c3_text_nonempty_iff :
    (∀ m : List (String × Json),
      (∃ r, validateTextProcessRequest m = .ok r) ↔
        ((∃ s, getField m "text" = some (Json.str s) ∧ 1 ≤ s.length)
          ∧ (getField m "title" = none ∨ getField m "title" = some Json.null
              ∨ ∃ s, getField m "title" = some (Json.str s))))
    ∧ validateTextProcessRequest [("text", Json.str ""), ("title", Json.str "Doc")]
        = .error [⟨["text"], "string_too_short", Json.str ""⟩] := by
  refine ⟨fun m => ?_, rfl⟩
  unfold validateTextProcessRequest
  rw [vApp2_ok_iff, vReqStrMin_ok_iff, vOptStr_ok_iff]

/-- Reduction of ChatMessage validation on an input giving both fields
as strings. -/
theorem validateChatMessage_strs (s c : String) :
    validateChatMessage [("role", Json.str s), ("content", Json.str c)]
      = vApp (vApp (.ok ChatMessage.mk)
          (if rolePattern s then Except.ok s
           else Except.error [⟨["role"], "string_pattern_mismatch", Json.str s⟩]))
          (Except.ok c) := rfl

/-- C4: the `role` field is accepted exactly for the literal strings
"user" and "assistant"; any other string fails with a pattern-rule
violation on `role`, never a silent default. -/
theorem c4_role_enum :
    (∀ s c : String,
      validateChatMessage [("role", Json.str s), ("content", Json.str c)]
        = if s = "user" ∨ s = "assistant" then .ok ⟨s, c⟩
          else .error [⟨["role"], "string_pattern_mismatch", Json.str s⟩])
    ∧ validateChatMessage [("role", Json.str "user"), ("content", Json.str "hi")]
        = .ok ⟨"user", "hi"⟩
    ∧ validateChatMessage [("role", Json.str "moderator"), ("content", Json.str "hi")]
        = .error [⟨["role"], "string_pattern_mismatch", Json.str "moderator"⟩] := by
  refine ⟨fun s c => ?_, rfl, rfl⟩
  rw [validateChatMessage_strs]
  by_cases h : s = "user" ∨ s = "assistant"
  · have hr : rolePattern s = true := by unfold rolePattern; exact decide_eq_true h
    simp [vApp, hr, h]
  · have hr : rolePattern s = false := by unfold rolePattern; exact decide_eq_false h
    simp [vApp, hr, h]

/-- C1: for every schema of the contract layer, when validation fails it
fails with the single collected error list naming every violated field —
not only the first violation encountered — and for each violated field
the list contains an entry giving that field's path, the violated rule
identifier, and the offending value (the supplied value, or null when
the field was absent). -/
theorem c1_all_violations_all_schemas (now : String)
    (m : List (String × Json)) (es : List ValErrorItem) :
    (validateTextProcessRequest m = .error es →
      (isStrMinVal 1 (getField m "text") = false →
        ∃ e ∈ es, e.loc = ["text"] ∧ e.type = reqStrMinRule (getField m "text")
          ∧ e.input = offendingInput (getField m "text"))
      ∧ (isOptStrVal (getField m "title") = false →
        ∃ e ∈ es, e.loc = ["title"] ∧ e.type = "string_type"
          ∧ e.input = offendingInput (getField m "title")))
    ∧ (validateDocumentUploadResponse m = .error es →
      (isBoolVal (getField m "success") = false →
        ∃ e ∈ es, e.loc = ["success"] ∧ e.type = reqBoolRule (getField m "success")
          ∧ e.input = offendingInput (getField m "success"))
      ∧ (isStrVal (getField m "document_id") = false →
        ∃ e ∈ es, e.loc = ["document_id"]
          ∧ e.type = reqStrRule (getField m "document_id")
          ∧ e.input = offendingInput (getField m "document_id"))
      ∧ (isStrVal (getField m "title") = false →
        ∃ e ∈ es, e.loc = ["title"] ∧ e.type = reqStrRule (getField m "title")
          ∧ e.input = offendingInput (getField m "title"))
      ∧ (isIntVal (getField m "chunks_created") = false →
        ∃ e ∈ es, e.loc = ["chunks_created"]
          ∧ e.type = reqIntRule (getField m "chunks_created")
          ∧ e.input = offendingInput (getField m "chunks_created"))
      ∧ (isIntDefaultVal (getField m "links_extracted") = false →
        ∃ e ∈ es, e.loc = ["links_extracted"]
          ∧ e.type = reqIntRule (getField m "links_extracted")
          ∧ e.input = offendingInput (getField m "links_extracted"))
      ∧ (isIntDefaultVal (getField m "images_extracted") = false →
        ∃ e ∈ es, e.loc = ["images_extracted"]
          ∧ e.type = reqIntRule (getField m "images_extracted")
          ∧ e.input = offendingInput (getField m "images_extracted"))
      ∧ (isFloatVal (getField m "processing_time_ms") = false →
        ∃ e ∈ es, e.loc = ["processing_time_ms"]
          ∧ e.type = reqFloatRule (getField m "processing_time_ms")
          ∧ e.input = offendingInput (getField m "processing_time_ms")))
    ∧ (validateChatMessage m = .error es →
      (isStrPatVal rolePattern (getField m "role") = false →
        ∃ e ∈ es, e.loc = ["role"] ∧ e.type = reqStrPatRule (getField m "role")
          ∧ e.input = offendingInput (getField m "role"))
      ∧ (isStrVal (getField m "content") = false →
        ∃ e ∈ es, e.loc = ["content"] ∧ e.type = reqStrRule (getField m "content")
          ∧ e.input = offendingInput (getField m "content")))
    ∧ (validateQueryRequest m = .error es →
      (isStrMinVal 1 (getField m "query") = false →
        ∃ e ∈ es, e.loc = ["query"] ∧ e.type = reqStrMinRule (getField m "query")
          ∧ e.input = offendingInput (getField m "query"))
      ∧ (isOptStrVal (getField m "session_id") = false →
        ∃ e ∈ es, e.loc = ["session_id"] ∧ e.type = "string_type"
          ∧ e.input = offendingInput (getField m "session_id"))
      ∧ (isOptListVal (getField m "chat_history") = false →
        ∃ e ∈ es, e.loc = ["chat_history"] ∧ e.type = "list_type"
          ∧ e.input = offendingInput (getField m "chat_history")))
    ∧ (validateSourceReference m = .error es →
      (isIntVal (getField m "id") = false →
        ∃ e ∈ es, e.loc = ["id"] ∧ e.type = reqIntRule (getField m "id")
          ∧ e.input = offendingInput (getField m "id"))
      ∧ (isStrVal (getField m "text") = false →
        ∃ e ∈ es, e.loc = ["text"] ∧ e.type = reqStrRule (getField m "text")
          ∧ e.input = offendingInput (getField m "text"))
      ∧ (isStrVal (getField m "document") = false →
        ∃ e ∈ es, e.loc = ["document"] ∧ e.type = reqStrRule (getField m "document")
          ∧ e.input = offendingInput (getField m "document"))
      ∧ (isListDefaultVal (getField m "links") = false →
        ∃ e ∈ es, e.loc = ["links"] ∧ e.type = "list_type"
          ∧ e.input = offendingInput (getField m "links"))
      ∧ (isListDefaultVal (getField m "images") = false →
        ∃ e ∈ es, e.loc = ["images"] ∧ e.type = "list_type"
          ∧ e.input = offendingInput (getField m "images"))
      ∧ (isFloatVal (getField m "score") = false →
        ∃ e ∈ es, e.loc = ["score"] ∧ e.type = reqFloatRule (getField m "score")
          ∧ e.input = offendingInput (getField m "score"))
      ∧ (isOptStrVal (getField m "chunk_id") = false →
        ∃ e ∈ es, e.loc = ["chunk_id"] ∧ e.type = "string_type"
          ∧ e.input = offendingInput (getField m "chunk_id"))
      ∧ (isOptStrVal (getField m "section") = false →
        ∃ e ∈ es, e.loc = ["section"] ∧ e.type = "string_type"
          ∧ e.input = offendingInput (getField m "section")))
    ∧ (validateTimingInfo m = .error es →
      (isFloatVal (getField m "retrieval_ms") = false →
        ∃ e ∈ es, e.loc = ["retrieval_ms"]
          ∧ e.type = reqFloatRule (getField m "retrieval_ms")
          ∧ e.input = offendingInput (getField m "retrieval_ms"))
      ∧ (isFloatVal (getField m "rerank_ms") = false →
        ∃ e ∈ es, e.loc = ["rerank_ms"]
          ∧ e.type = reqFloatRule (getField m "rerank_ms")
          ∧ e.input = offendingInput (getField m "rerank_ms"))
      ∧ (isFloatVal (getField m "llm_ms") = false →
        ∃ e ∈ es, e.loc = ["llm_ms"] ∧ e.type = reqFloatRule (getField m "llm_ms")
          ∧ e.input = offendingInput (getField m "llm_ms"))
      ∧ (isFloatVal (getField m "total_ms") = false →
        ∃ e ∈ es, e.loc = ["total_ms"]
          ∧ e.type = reqFloatRule (getField m "total_ms")
          ∧ e.input = offendingInput (getField m "total_ms")))
    ∧ (validateTokenUsage m = .error es →
      (isIntVal (getField m "prompt_tokens") = false →
        ∃ e ∈ es, e.loc = ["prompt_tokens"]
          ∧ e.type = reqIntRule (getField m "prompt_tokens")
          ∧ e.input = offendingInput (getField m "prompt_tokens"))
      ∧ (isIntVal (getField m "completion_tokens") = false →
        ∃ e ∈ es, e.loc = ["completion_tokens"]
          ∧ e.type = reqIntRule (getField m "completion_tokens")
          ∧ e.input = offendingInput (getField m "completion_tokens"))
      ∧ (isIntVal (getField m "total_tokens") = false →
        ∃ e ∈ es, e.loc = ["total_tokens"]
          ∧ e.type = reqIntRule (getField m "total_tokens")
          ∧ e.input = offendingInput (getField m "total_tokens"))
      ∧ (isFloatVal (getField m "estimated_cost_usd") = false →
        ∃ e ∈ es, e.loc = ["estimated_cost_usd"]
          ∧ e.type = reqFloatRule (getField m "estimated_cost_usd")
          ∧ e.input = offendingInput (getField m "estimated_cost_usd")))
    ∧ (validateQueryResponse m = .error es →
      (isStrVal (getField m "answer") = false →
        ∃ e ∈ es, e.loc = ["answer"] ∧ e.type = reqStrRule (getField m "answer")
          ∧ e.input = offendingInput (getField m "answer"))
      ∧ (isListDefaultVal (getField m "sources") = false →
        ∃ e ∈ es, e.loc = ["sources"] ∧ e.type = "list_type"
          ∧ e.input = offendingInput (getField m "sources"))
      ∧ (isBoolVal (getField m "has_context") = false →
        ∃ e ∈ es, e.loc = ["has_context"]
          ∧ e.type = reqBoolRule (getField m "has_context")
          ∧ e.input = offendingInput (getField m "has_context"))
      ∧ (isOptStrVal (getField m "general_answer") = false →
        ∃ e ∈ es, e.loc = ["general_answer"] ∧ e.type = "string_type"
          ∧ e.input = offendingInput (getField m "general_answer"))
      ∧ (isModelVal (getField m "timing") = false →
        ∃ e ∈ es, e.loc = ["timing"] ∧ e.type = reqModelRule (getField m "timing")
          ∧ e.input = offendingInput (getField m "timing"))
      ∧ (isOptModelVal (getField m "token_usage") = false →
        ∃ e ∈ es, e.loc = ["token_usage"] ∧ e.type = "model_type"
          ∧ e.input = offendingInput (getField m "token_usage"))
      ∧ (isOptStrVal (getField m "session_id") = false →
        ∃ e ∈ es, e.loc = ["session_id"] ∧ e.type = "string_type"
          ∧ e.input = offendingInput (getField m "session_id")))
    ∧ (validateChunkMetadata now m = .error es →
      (isStrVal (getField m "source") = false →
        ∃ e ∈ es, e.loc = ["source"] ∧ e.type = reqStrRule (getField m "source")
          ∧ e.input = offendingInput (getField m "source"))
      ∧ (isStrVal (getField m "title") = false →
        ∃ e ∈ es, e.loc = ["title"] ∧ e.type = reqStrRule (getField m "title")
          ∧ e.input = offendingInput (getField m "title"))
      ∧ (isOptStrVal (getField m "section") = false →
        ∃ e ∈ es, e.loc = ["section"] ∧ e.type = "string_type"
          ∧ e.input = offendingInput (getField m "section"))
      ∧ (isStrVal (getField m "chunk_id") = false →
        ∃ e ∈ es, e.loc = ["chunk_id"] ∧ e.type = reqStrRule (getField m "chunk_id")
          ∧ e.input = offendingInput (getField m "chunk_id"))
      ∧ (isListDefaultVal (getField m "links") = false →
        ∃ e ∈ es, e.loc = ["links"] ∧ e.type = "list_type"
          ∧ e.input = offendingInput (getField m "links"))
      ∧ (isListDefaultVal (getField m "images") = false →
        ∃ e ∈ es, e.loc = ["images"] ∧ e.type = "list_type"
          ∧ e.input = offendingInput (getField m "images"))
      ∧ (isStrDefaultVal (getField m "created_at") = false →
        ∃ e ∈ es, e.loc = ["created_at"] ∧ e.type = "string_type"
          ∧ e.input = offendingInput (getField m "created_at")))
    ∧ (validateRetrievedChunk now m = .error es →
      (isStrVal (getField m "chunk_id") = false →
        ∃ e ∈ es, e.loc = ["chunk_id"] ∧ e.type = reqStrRule (getField m "chunk_id")
          ∧ e.input = offendingInput (getField m "chunk_id"))
      ∧ (isStrVal (getField m "text") = false →
        ∃ e ∈ es, e.loc = ["text"] ∧ e.type = reqStrRule (getField m "text")
          ∧ e.input = offendingInput (getField m "text"))
      ∧ (isFloatVal (getField m "score") = false →
        ∃ e ∈ es, e.loc = ["score"] ∧ e.type = reqFloatRule (getField m "score")
          ∧ e.input = offendingInput (getField m "score"))
      ∧ (isModelVal (getField m "metadata") = false →
        ∃ e ∈ es, e.loc = ["metadata"]
          ∧ e.type = reqModelRule (getField m "metadata")
          ∧ e.input = offendingInput (getField m "metadata")))
    ∧ (validateRerankedChunk now m = .error es →
      (isStrVal (getField m "chunk_id") = false →
        ∃ e ∈ es, e.loc = ["chunk_id"] ∧ e.type = reqStrRule (getField m "chunk_id")
          ∧ e.input = offendingInput (getField m "chunk_id"))
      ∧ (isStrVal (getField m "text") = false →
        ∃ e ∈ es, e.loc = ["text"] ∧ e.type = reqStrRule (getField m "text")
          ∧ e.input = offendingInput (getField m "text"))
      ∧ (isFloatVal (getField m "score") = false →
        ∃ e ∈ es, e.loc = ["score"] ∧ e.type = reqFloatRule (getField m "score")
          ∧ e.input = offendingInput (getField m "score"))
      ∧ (isFloatVal (getField m "original_score") = false →
        ∃ e ∈ es, e.loc = ["original_score"]
          ∧ e.type = reqFloatRule (getField m "original_score")
          ∧ e.input = offendingInput (getField m "original_score"))
      ∧ (isModelVal (getField m "metadata") = false →
        ∃ e ∈ es, e.loc = ["metadata"]
          ∧ e.type = reqModelRule (getField m "metadata")
          ∧ e.input = offendingInput (getField m "metadata")))
    ∧ (validateHealthResponse now m = .error es →
      (isStrVal (getField m "status") = false →
        ∃ e ∈ es, e.loc = ["status"] ∧ e.type = reqStrRule (getField m "status")
          ∧ e.input = offendingInput (getField m "status"))
      ∧ (isBoolVal (getField m "qdrant_connected") = false →
        ∃ e ∈ es, e.loc = ["qdrant_connected"]
          ∧ e.type = reqBoolRule (getField m "qdrant_connected")
          ∧ e.input = offendingInput (getField m "qdrant_connected"))
      ∧ (isBoolVal (getField m "openai_configured") = false →
        ∃ e ∈ es, e.loc = ["openai_configured"]
          ∧ e.type = reqBoolRule (getField m "openai_configured")
          ∧ e.input = offendingInput (getField m "openai_configured"))
      ∧ (isBoolVal (getField m "cohere_configured") = false →
        ∃ e ∈ es, e.loc = ["cohere_configured"]
          ∧ e.type = reqBoolRule (getField m "cohere_configured")
          ∧ e.input = offendingInput (getField m "cohere_configured"))
      ∧ (isStrDefaultVal (getField m "timestamp") = false →
        ∃ e ∈ es, e.loc = ["timestamp"] ∧ e.type = "string_type"
          ∧ e.input = offendingInput (getField m "timestamp"))) := by
  refine ⟨?_, ?_, ?_, ?_, ?_, ?_, ?_, ?_, ?_, ?_, ?_, ?_⟩
  · intro h
    have hes : es = errs (validateTextProcessRequest m) := by rw [h]; rfl
    subst hes
    simp only [validateTextProcessRequest, errs_vApp, errs_ok, List.nil_append,
      List.append_assoc]
    refine ⟨fun hb => ?_, fun hb => ?_⟩
    · obtain ⟨e, hm, hsp⟩ := vReqStrMin_err_spec ["text"] 1 (getField m "text") hb
      exact ⟨e, by simp only [List.mem_append]; tauto, hsp⟩
    · obtain ⟨e, hm, hsp⟩ := vOptStr_err_spec ["title"] (getField m "title") hb
      exact ⟨e, by simp only [List.mem_append]; tauto, hsp⟩
  · intro h
    have hes : es = errs (validateDocumentUploadResponse m) := by rw [h]; rfl
    subst hes
    simp only [validateDocumentUploadResponse, errs_vApp, errs_ok, List.nil_append,
      List.append_assoc]
    refine ⟨fun hb => ?_, fun hb => ?_, fun hb => ?_, fun hb => ?_, fun hb => ?_,
      fun hb => ?_, fun hb => ?_⟩
    · obtain ⟨e, hm, hsp⟩ := vReqBool_err_spec ["success"] (getField m "success") hb
      exact ⟨e, by simp only [List.mem_append]; tauto, hsp⟩
    · obtain ⟨e, hm, hsp⟩ := vReqStr_err_spec ["document_id"] (getField m "document_id") hb
      exact ⟨e, by simp only [List.mem_append]; tauto, hsp⟩
    · obtain ⟨e, hm, hsp⟩ := vReqStr_err_spec ["title"] (getField m "title") hb
      exact ⟨e, by simp only [List.mem_append]; tauto, hsp⟩
    · obtain ⟨e, hm, hsp⟩ := vReqInt_err_spec ["chunks_created"] (getField m "chunks_created") hb
      exact ⟨e, by simp only [List.mem_append]; tauto, hsp⟩
    · obtain ⟨e, hm, hsp⟩ := vIntDefault_err_spec ["links_extracted"] 0
        (getField m "links_extracted") hb
      exact ⟨e, by simp only [List.mem_append]; tauto, hsp⟩
    · obtain ⟨e, hm, hsp⟩ := vIntDefault_err_spec ["images_extracted"] 0
        (getField m "images_extracted") hb
      exact ⟨e, by simp only [List.mem_append]; tauto, hsp⟩
    · obtain ⟨e, hm, hsp⟩ := vReqFloat_err_spec ["processing_time_ms"]
        (getField m "processing_time_ms") hb
      exact ⟨e, by simp only [List.mem_append]; tauto, hsp⟩
  · intro h
    have hes : es = errs (validateChatMessage m) := by rw [h]; rfl
    subst hes
    simp only [validateChatMessage, errs_vApp, errs_ok, List.nil_append,
      List.append_assoc]
    refine ⟨fun hb => ?_, fun hb => ?_⟩
    · obtain ⟨e, hm, hsp⟩ := vReqStrPat_err_spec ["role"] rolePattern (getField m "role") hb
      exact ⟨e, by simp only [List.mem_append]; tauto, hsp⟩
    · obtain ⟨e, hm, hsp⟩ := vReqStr_err_spec ["content"] (getField m "content") hb
      exact ⟨e, by simp only [List.mem_append]; tauto, hsp⟩
  · intro h
    have hes : es = errs (validateQueryRequest m) := by rw [h]; rfl
    subst hes
    simp only [validateQueryRequest, errs_vApp, errs_ok, List.nil_append,
      List.append_assoc]
    refine ⟨fun hb => ?_, fun hb => ?_, fun hb => ?_⟩
    · obtain ⟨e, hm, hsp⟩ := vReqStrMin_err_spec ["query"] 1 (getField m "query") hb
      exact ⟨e, by simp only [List.mem_append]; tauto, hsp⟩
    · obtain ⟨e, hm, hsp⟩ := vOptStr_err_spec ["session_id"] (getField m "session_id") hb
      exact ⟨e, by simp only [List.mem_append]; tauto, hsp⟩
    · obtain ⟨e, hm, hsp⟩ := vOptListModel_err_spec ["chat_history"] validateChatMessage
        (getField m "chat_history") hb
      exact ⟨e, by simp only [List.mem_append]; tauto, hsp⟩
  · intro h
    have hes : es = errs (validateSourceReference m) := by rw [h]; rfl
    subst hes
    simp only [validateSourceReference, errs_vApp, errs_ok, List.nil_append,
      List.append_assoc]
    refine ⟨fun hb => ?_, fun hb => ?_, fun hb => ?_, fun hb => ?_, fun hb => ?_,
      fun hb => ?_, fun hb => ?_, fun hb => ?_⟩
    · obtain ⟨e, hm, hsp⟩ := vReqInt_err_spec ["id"] (getField m "id") hb
      exact ⟨e, by simp only [List.mem_append]; tauto, hsp⟩
    · obtain ⟨e, hm, hsp⟩ := vReqStr_err_spec ["text"] (getField m "text") hb
      exact ⟨e, by simp only [List.mem_append]; tauto, hsp⟩
    · obtain ⟨e, hm, hsp⟩ := vReqStr_err_spec ["document"] (getField m "document") hb
      exact ⟨e, by simp only [List.mem_append]; tauto, hsp⟩
    · obtain ⟨e, hm, hsp⟩ := vListStrDefault_err_spec ["links"] (getField m "links") hb
      exact ⟨e, by simp only [List.mem_append]; tauto, hsp⟩
    · obtain ⟨e, hm, hsp⟩ := vListStrDefault_err_spec ["images"] (getField m "images") hb
      exact ⟨e, by simp only [List.mem_append]; tauto, hsp⟩
    · obtain ⟨e, hm, hsp⟩ := vReqFloat_err_spec ["score"] (getField m "score") hb
      exact ⟨e, by simp only [List.mem_append]; tauto, hsp⟩
    · obtain ⟨e, hm, hsp⟩ := vOptStr_err_spec ["chunk_id"] (getField m "chunk_id") hb
      exact ⟨e, by simp only [List.mem_append]; tauto, hsp⟩
    · obtain ⟨e, hm, hsp⟩ := vOptStr_err_spec ["section"] (getField m "section") hb
      exact ⟨e, by simp only [List.mem_append]; tauto, hsp⟩
  · intro h
    have hes : es = errs (validateTimingInfo m) := by rw [h]; rfl
    subst hes
    simp only [validateTimingInfo, errs_vApp, errs_ok, List.nil_append,
      List.append_assoc]
    refine ⟨fun hb => ?_, fun hb => ?_, fun hb => ?_, fun hb => ?_⟩
    · obtain ⟨e, hm, hsp⟩ := vReqFloat_err_spec ["retrieval_ms"] (getField m "retrieval_ms") hb
      exact ⟨e, by simp only [List.mem_append]; tauto, hsp⟩
    · obtain ⟨e, hm, hsp⟩ := vReqFloat_err_spec ["rerank_ms"] (getField m "rerank_ms") hb
      exact ⟨e, by simp only [List.mem_append]; tauto, hsp⟩
    · obtain ⟨e, hm, hsp⟩ := vReqFloat_err_spec ["llm_ms"] (getField m "llm_ms") hb
      exact ⟨e, by simp only [List.mem_append]; tauto, hsp⟩
    · obtain ⟨e, hm, hsp⟩ := vReqFloat_err_spec ["total_ms"] (getField m "total_ms") hb
      exact ⟨e, by simp only [List.mem_append]; tauto, hsp⟩
  · intro h
    have hes : es = errs (validateTokenUsage m) := by rw [h]; rfl
    subst hes
    simp only [validateTokenUsage, errs_vApp, errs_ok, List.nil_append,
      List.append_assoc]
    refine ⟨fun hb => ?_, fun hb => ?_, fun hb => ?_, fun hb => ?_⟩
    · obtain ⟨e, hm, hsp⟩ := vReqInt_err_spec ["prompt_tokens"] (getField m "prompt_tokens") hb
      exact ⟨e, by simp only [List.mem_append]; tauto, hsp⟩
    · obtain ⟨e, hm, hsp⟩ := vReqInt_err_spec ["completion_tokens"]
        (getField m "completion_tokens") hb
      exact ⟨e, by simp only [List.mem_append]; tauto, hsp⟩
    · obtain ⟨e, hm, hsp⟩ := vReqInt_err_spec ["total_tokens"] (getField m "total_tokens") hb
      exact ⟨e, by simp only [List.mem_append]; tauto, hsp⟩
    · obtain ⟨e, hm, hsp⟩ := vReqFloat_err_spec ["estimated_cost_usd"]
        (getField m "estimated_cost_usd") hb
      exact ⟨e, by simp only [List.mem_append]; tauto, hsp⟩
  · intro h
    have hes : es = errs (validateQueryResponse m) := by rw [h]; rfl
    subst hes
    simp only [validateQueryResponse, errs_vApp, errs_ok, List.nil_append,
      List.append_assoc]
    refine ⟨fun hb => ?_, fun hb => ?_, fun hb => ?_, fun hb => ?_, fun hb => ?_,
      fun hb => ?_, fun hb => ?_⟩
    · obtain ⟨e, hm, hsp⟩ := vReqStr_err_spec ["answer"] (getField m "answer") hb
      exact ⟨e, by simp only [List.mem_append]; tauto, hsp⟩
    · obtain ⟨e, hm, hsp⟩ := vListModelDefault_err_spec ["sources"] validateSourceReference
        (getField m "sources") hb
      exact ⟨e, by simp only [List.mem_append]; tauto, hsp⟩
    · obtain ⟨e, hm, hsp⟩ := vReqBool_err_spec ["has_context"] (getField m "has_context") hb
      exact ⟨e, by simp only [List.mem_append]; tauto, hsp⟩
    · obtain ⟨e, hm, hsp⟩ := vOptStr_err_spec ["general_answer"] (getField m "general_answer") hb
      exact ⟨e, by simp only [List.mem_append]; tauto, hsp⟩
    · obtain ⟨e, hm, hsp⟩ := vReqModel_err_spec ["timing"] validateTimingInfo
        (getField m "timing") hb
      exact ⟨e, by simp only [List.mem_append]; tauto, hsp⟩
    · obtain ⟨e, hm, hsp⟩ := vOptModel_err_spec ["token_usage"] validateTokenUsage
        (getField m "token_usage") hb
      exact ⟨e, by simp only [List.mem_append]; tauto, hsp⟩
    · obtain ⟨e, hm, hsp⟩ := vOptStr_err_spec ["session_id"] (getField m "session_id") hb
      exact ⟨e, by simp only [List.mem_append]; tauto, hsp⟩
  · intro h
    have hes : es = errs (validateChunkMetadata now m) := by rw [h]; rfl
    subst hes
    simp only [validateChunkMetadata, errs_vApp, errs_ok, List.nil_append,
      List.append_assoc]
    refine ⟨fun hb => ?_, fun hb => ?_, fun hb => ?_, fun hb => ?_, fun hb => ?_,
      fun hb => ?_, fun hb => ?_⟩
    · obtain ⟨e, hm, hsp⟩ := vReqStr_err_spec ["source"] (getField m "source") hb
      exact ⟨e, by simp only [List.mem_append]; tauto, hsp⟩
    · obtain ⟨e, hm, hsp⟩ := vReqStr_err_spec ["title"] (getField m "title") hb
      exact ⟨e, by simp only [List.mem_append]; tauto, hsp⟩
    · obtain ⟨e, hm, hsp⟩ := vOptStr_err_spec ["section"] (getField m "section") hb
      exact ⟨e, by simp only [List.mem_append]; tauto, hsp⟩
    · obtain ⟨e, hm, hsp⟩ := vReqStr_err_spec ["chunk_id"] (getField m "chunk_id") hb
      exact ⟨e, by simp only [List.mem_append]; tauto, hsp⟩
    · obtain ⟨e, hm, hsp⟩ := vListStrDefault_err_spec ["links"] (getField m "links") hb
      exact ⟨e, by simp only [List.mem_append]; tauto, hsp⟩
    · obtain ⟨e, hm, hsp⟩ := vListStrDefault_err_spec ["images"] (getField m "images") hb
      exact ⟨e, by simp only [List.mem_append]; tauto, hsp⟩
    · obtain ⟨e, hm, hsp⟩ := vStrDefault_err_spec ["created_at"] now
        (getField m "created_at") hb
      exact ⟨e, by simp only [List.mem_append]; tauto, hsp⟩
  · intro h
    have hes : es = errs (validateRetrievedChunk now m) := by rw [h]; rfl
    subst hes
    simp only [validateRetrievedChunk, errs_vApp, errs_ok, List.nil_append,
      List.append_assoc]
    refine ⟨fun hb => ?_, fun hb => ?_, fun hb => ?_, fun hb => ?_⟩
    · obtain ⟨e, hm, hsp⟩ := vReqStr_err_spec ["chunk_id"] (getField m "chunk_id") hb
      exact ⟨e, by simp only [List.mem_append]; tauto, hsp⟩
    · obtain ⟨e, hm, hsp⟩ := vReqStr_err_spec ["text"] (getField m "text") hb
      exact ⟨e, by simp only [List.mem_append]; tauto, hsp⟩
    · obtain ⟨e, hm, hsp⟩ := vReqFloat_err_spec ["score"] (getField m "score") hb
      exact ⟨e, by simp only [List.mem_append]; tauto, hsp⟩
    · obtain ⟨e, hm, hsp⟩ := vReqModel_err_spec ["metadata"] (validateChunkMetadata now)
        (getField m "metadata") hb
      exact ⟨e, by simp only [List.mem_append]; tauto, hsp⟩
  · intro h
    have hes : es = errs (validateRerankedChunk now m) := by rw [h]; rfl
    subst hes
    simp only [validateRerankedChunk, errs_vApp, errs_ok, List.nil_append,
      List.append_assoc]
    refine ⟨fun hb => ?_, fun hb => ?_, fun hb => ?_, fun hb => ?_, fun hb => ?_⟩
    · obtain ⟨e, hm, hsp⟩ := vReqStr_err_spec ["chunk_id"] (getField m "chunk_id") hb
      exact ⟨e, by simp only [List.mem_append]; tauto, hsp⟩
    · obtain ⟨e, hm, hsp⟩ := vReqStr_err_spec ["text"] (getField m "text") hb
      exact ⟨e, by simp only [List.mem_append]; tauto, hsp⟩
    · obtain ⟨e, hm, hsp⟩ := vReqFloat_err_spec ["score"] (getField m "score") hb
      exact ⟨e, by simp only [List.mem_append]; tauto, hsp⟩
    · obtain ⟨e, hm, hsp⟩ := vReqFloat_err_spec ["original_score"]
        (getField m "original_score") hb
      exact ⟨e, by simp only [List.mem_append]; tauto, hsp⟩
    · obtain ⟨e, hm, hsp⟩ := vReqModel_err_spec ["metadata"] (validateChunkMetadata now)
        (getField m "metadata") hb
      exact ⟨e, by simp only [List.mem_append]; tauto, hsp⟩
  · intro h
    have hes : es = errs (validateHealthResponse now m) := by rw [h]; rfl
    subst hes
    simp only [validateHealthResponse, errs_vApp, errs_ok, List.nil_append,
      List.append_assoc]
    refine ⟨fun hb => ?_, fun hb => ?_, fun hb => ?_, fun hb => ?_, fun hb => ?_⟩
    · obtain ⟨e, hm, hsp⟩ := vReqStr_err_spec ["status"] (getField m "status") hb
      exact ⟨e, by simp only [List.mem_append]; tauto, hsp⟩
    · obtain ⟨e, hm, hsp⟩ := vReqBool_err_spec ["qdrant_connected"]
        (getField m "qdrant_connected") hb
      exact ⟨e, by simp only [List.mem_append]; tauto, hsp⟩
    · obtain ⟨e, hm, hsp⟩ := vReqBool_err_spec ["openai_configured"]
        (getField m "openai_configured") hb
      exact ⟨e, by simp only [List.mem_append]; tauto, hsp⟩
    · obtain ⟨e, hm, hsp⟩ := vReqBool_err_spec ["cohere_configured"]
        (getField m "cohere_configured") hb
      exact ⟨e, by simp only [List.mem_append]; tauto, hsp⟩
    · obtain ⟨e, hm, hsp⟩ := vStrDefault_err_spec ["timestamp"] now
        (getField m "timestamp") hb
      exact ⟨e, by simp only [List.mem_append]; tauto, hsp⟩

/-- C1 witness: on concrete inputs violating every field of every schema
at once, validation returns the full error list and each violated field
is reported with its path, rule and offending value. -/
theorem c1_witness_all_schemas :
    ((∃ e ∈ c1wTPRerrs, e.loc = ["text"] ∧ e.type = "string_type" ∧ e.input = Json.arr [])
      ∧ (∃ e ∈ c1wTPRerrs, e.loc = ["title"] ∧ e.type = "string_type" ∧ e.input = Json.arr []))
    ∧ ((∃ e ∈ c1wDURerrs, e.loc = ["success"] ∧ e.type = "bool_type" ∧ e.input = Json.arr [])
      ∧ (∃ e ∈ c1wDURerrs, e.loc = ["document_id"] ∧ e.type = "string_type" ∧ e.input = Json.arr [])
      ∧ (∃ e ∈ c1wDURerrs, e.loc = ["title"] ∧ e.type = "string_type" ∧ e.input = Json.arr [])
      ∧ (∃ e ∈ c1wDURerrs, e.loc = ["chunks_created"] ∧ e.type = "int_type" ∧ e.input = Json.arr [])
      ∧ (∃ e ∈ c1wDURerrs, e.loc = ["links_extracted"] ∧ e.type = "int_type" ∧ e.input = Json.arr [])
      ∧ (∃ e ∈ c1wDURerrs, e.loc = ["images_extracted"] ∧ e.type = "int_type" ∧ e.input = Json.arr [])
      ∧ (∃ e ∈ c1wDURerrs, e.loc = ["processing_time_ms"] ∧ e.type = "float_type" ∧ e.input = Json.arr []))
    ∧ ((∃ e ∈ c1wCMerrs, e.loc = ["role"] ∧ e.type = "string_type" ∧ e.input = Json.arr [])
      ∧ (∃ e ∈ c1wCMerrs, e.loc = ["content"] ∧ e.type = "string_type" ∧ e.input = Json.arr []))
    ∧ ((∃ e ∈ c1wQReqErrs, e.loc = ["query"] ∧ e.type = "string_type" ∧ e.input = Json.arr [])
      ∧ (∃ e ∈ c1wQReqErrs, e.loc = ["session_id"] ∧ e.type = "string_type" ∧ e.input = Json.arr [])
      ∧ (∃ e ∈ c1wQReqErrs, e.loc = ["chat_history"] ∧ e.type = "list_type" ∧ e.input = Json.int 0))
    ∧ ((∃ e ∈ c1wSRerrs, e.loc = ["id"] ∧ e.type = "int_type" ∧ e.input = Json.arr [])
      ∧ (∃ e ∈ c1wSRerrs, e.loc = ["text"] ∧ e.type = "string_type" ∧ e.input = Json.arr [])
      ∧ (∃ e ∈ c1wSRerrs, e.loc = ["document"] ∧ e.type = "string_type" ∧ e.input = Json.arr [])
      ∧ (∃ e ∈ c1wSRerrs, e.loc = ["links"] ∧ e.type = "list_type" ∧ e.input = Json.int 0)
      ∧ (∃ e ∈ c1wSRerrs, e.loc = ["images"] ∧ e.type = "list_type" ∧ e.input = Json.int 0)
      ∧ (∃ e ∈ c1wSRerrs, e.loc = ["score"] ∧ e.type = "float_type" ∧ e.input = Json.arr [])
      ∧ (∃ e ∈ c1wSRerrs, e.loc = ["chunk_id"] ∧ e.type = "string_type" ∧ e.input = Json.arr [])
      ∧ (∃ e ∈ c1wSRerrs, e.loc = ["section"] ∧ e.type = "string_type" ∧ e.input = Json.arr []))
    ∧ ((∃ e ∈ c1wTIerrs, e.loc = ["retrieval_ms"] ∧ e.type = "float_type" ∧ e.input = Json.arr [])
      ∧ (∃ e ∈ c1wTIerrs, e.loc = ["rerank_ms"] ∧ e.type = "float_type" ∧ e.input = Json.arr [])
      ∧ (∃ e ∈ c1wTIerrs, e.loc = ["llm_ms"] ∧ e.type = "float_type" ∧ e.input = Json.arr [])
      ∧ (∃ e ∈ c1wTIerrs, e.loc = ["total_ms"] ∧ e.type = "float_type" ∧ e.input = Json.arr []))
    ∧ ((∃ e ∈ c1wTUerrs, e.loc = ["prompt_tokens"] ∧ e.type = "int_type" ∧ e.input = Json.arr [])
      ∧ (∃ e ∈ c1wTUerrs, e.loc = ["completion_tokens"] ∧ e.type = "int_type" ∧ e.input = Json.arr [])
      ∧ (∃ e ∈ c1wTUerrs, e.loc = ["total_tokens"] ∧ e.type = "int_type" ∧ e.input = Json.arr [])
      ∧ (∃ e ∈ c1wTUerrs, e.loc = ["estimated_cost_usd"] ∧ e.type = "float_type" ∧ e.input = Json.arr []))
    ∧ ((∃ e ∈ c1wQRespErrs, e.loc = ["answer"] ∧ e.type = "string_type" ∧ e.input = Json.arr [])
      ∧ (∃ e ∈ c1wQRespErrs, e.loc = ["sources"] ∧ e.type = "list_type" ∧ e.input = Json.int 0)
      ∧ (∃ e ∈ c1wQRespErrs, e.loc = ["has_context"] ∧ e.type = "bool_type" ∧ e.input = Json.arr [])
      ∧ (∃ e ∈ c1wQRespErrs, e.loc = ["general_answer"] ∧ e.type = "string_type" ∧ e.input = Json.arr [])
      ∧ (∃ e ∈ c1wQRespErrs, e.loc = ["timing"] ∧ e.type = "model_type" ∧ e.input = Json.int 0)
      ∧ (∃ e ∈ c1wQRespErrs, e.loc = ["token_usage"] ∧ e.type = "model_type" ∧ e.input = Json.int 0)
      ∧ (∃ e ∈ c1wQRespErrs, e.loc = ["session_id"] ∧ e.type = "string_type" ∧ e.input = Json.arr []))
    ∧ ((∃ e ∈ c1wChMerrs, e.loc = ["source"] ∧ e.type = "string_type" ∧ e.input = Json.arr [])
      ∧ (∃ e ∈ c1wChMerrs, e.loc = ["title"] ∧ e.type = "string_type" ∧ e.input = Json.arr [])
      ∧ (∃ e ∈ c1wChMerrs, e.loc = ["section"] ∧ e.type = "string_type" ∧ e.input = Json.arr [])
      ∧ (∃ e ∈ c1wChMerrs, e.loc = ["chunk_id"] ∧ e.type = "string_type" ∧ e.input = Json.arr [])
      ∧ (∃ e ∈ c1wChMerrs, e.loc = ["links"] ∧ e.type = "list_type" ∧ e.input = Json.int 0)
      ∧ (∃ e ∈ c1wChMerrs, e.loc = ["images"] ∧ e.type = "list_type" ∧ e.input = Json.int 0)
      ∧ (∃ e ∈ c1wChMerrs, e.loc = ["created_at"] ∧ e.type = "string_type" ∧ e.input = Json.arr []))
    ∧ ((∃ e ∈ c1wRetCerrs, e.loc = ["chunk_id"] ∧ e.type = "string_type" ∧ e.input = Json.arr [])
      ∧ (∃ e ∈ c1wRetCerrs, e.loc = ["text"] ∧ e.type = "string_type" ∧ e.input = Json.arr [])
      ∧ (∃ e ∈ c1wRetCerrs, e.loc = ["score"] ∧ e.type = "float_type" ∧ e.input = Json.arr [])
      ∧ (∃ e ∈ c1wRetCerrs, e.loc = ["metadata"] ∧ e.type = "model_type" ∧ e.input = Json.int 0))
    ∧ ((∃ e ∈ c1wRerCerrs, e.loc = ["chunk_id"] ∧ e.type = "string_type" ∧ e.input = Json.arr [])
      ∧ (∃ e ∈ c1wRerCerrs, e.loc = ["text"] ∧ e.type = "string_type" ∧ e.input = Json.arr [])
      ∧ (∃ e ∈ c1wRerCerrs, e.loc = ["score"] ∧ e.type = "float_type" ∧ e.input = Json.arr [])
      ∧ (∃ e ∈ c1wRerCerrs, e.loc = ["original_score"] ∧ e.type = "float_type" ∧ e.input = Json.arr [])
      ∧ (∃ e ∈ c1wRerCerrs, e.loc = ["metadata"] ∧ e.type = "model_type" ∧ e.input = Json.int 0))
    ∧ ((∃ e ∈ c1wHRerrs, e.loc = ["status"] ∧ e.type = "string_type" ∧ e.input = Json.arr [])
      ∧ (∃ e ∈ c1wHRerrs, e.loc = ["qdrant_connected"] ∧ e.type = "bool_type" ∧ e.input = Json.arr [])
      ∧ (∃ e ∈ c1wHRerrs, e.loc = ["openai_configured"] ∧ e.type = "bool_type" ∧ e.input = Json.arr [])
      ∧ (∃ e ∈ c1wHRerrs, e.loc = ["cohere_configured"] ∧ e.type = "bool_type" ∧ e.input = Json.arr [])
      ∧ (∃ e ∈ c1wHRerrs, e.loc = ["timestamp"] ∧ e.type = "string_type" ∧ e.input = Json.arr [])) := by
  have h1 := (c1_all_violations_all_schemas "T" c1wTPR c1wTPRerrs).1 rfl
  have h2 := (c1_all_violations_all_schemas "T" c1wDUR c1wDURerrs).2.1 rfl
  have h3 := (c1_all_violations_all_schemas "T" c1wCM c1wCMerrs).2.2.1 rfl
  have h4 := (c1_all_violations_all_schemas "T" c1wQReq c1wQReqErrs).2.2.2.1 rfl
  have h5 := (c1_all_violations_all_schemas "T" c1wSR c1wSRerrs).2.2.2.2.1 rfl
  have h6 := (c1_all_violations_all_schemas "T" c1wTI c1wTIerrs).2.2.2.2.2.1 rfl
  have h7 := (c1_all_violations_all_schemas "T" c1wTU c1wTUerrs).2.2.2.2.2.2.1 rfl
  have h8 := (c1_all_violations_all_schemas "T" c1wQResp c1wQRespErrs).2.2.2.2.2.2.2.1 rfl
  have h9 := (c1_all_violations_all_schemas "T" c1wChM c1wChMerrs).2.2.2.2.2.2.2.2.1 rfl
  have h10 := (c1_all_violations_all_schemas "T" c1wRetC c1wRetCerrs).2.2.2.2.2.2.2.2.2.1 rfl
  have h11 := (c1_all_violations_all_schemas "T" c1wRerC c1wRerCerrs).2.2.2.2.2.2.2.2.2.2.1 rfl
  have h12 := (c1_all_violations_all_schemas "T" c1wHR c1wHRerrs).2.2.2.2.2.2.2.2.2.2.2 rfl
  exact ⟨⟨h1.1 rfl, h1.2 rfl⟩,
    ⟨h2.1 rfl, h2.2.1 rfl, h2.2.2.1 rfl, h2.2.2.2.1 rfl, h2.2.2.2.2.1 rfl,
      h2.2.2.2.2.2.1 rfl, h2.2.2.2.2.2.2 rfl⟩,
    ⟨h3.1 rfl, h3.2 rfl⟩,
    ⟨h4.1 rfl, h4.2.1 rfl, h4.2.2 rfl⟩,
    ⟨h5.1 rfl, h5.2.1 rfl, h5.2.2.1 rfl, h5.2.2.2.1 rfl, h5.2.2.2.2.1 rfl,
      h5.2.2.2.2.2.1 rfl, h5.2.2.2.2.2.2.1 rfl, h5.2.2.2.2.2.2.2 rfl⟩,
    ⟨h6.1 rfl, h6.2.1 rfl, h6.2.2.1 rfl, h6.2.2.2 rfl⟩,
    ⟨h7.1 rfl, h7.2.1 rfl, h7.2.2.1 rfl, h7.2.2.2 rfl⟩,
    ⟨h8.1 rfl, h8.2.1 rfl, h8.2.2.1 rfl, h8.2.2.2.1 rfl, h8.2.2.2.2.1 rfl,
      h8.2.2.2.2.2.1 rfl, h8.2.2.2.2.2.2 rfl⟩,
    ⟨h9.1 rfl, h9.2.1 rfl, h9.2.2.1 rfl, h9.2.2.2.1 rfl, h9.2.2.2.2.1 rfl,
      h9.2.2.2.2.2.1 rfl, h9.2.2.2.2.2.2 rfl⟩,
    ⟨h10.1 rfl, h10.2.1 rfl, h10.2.2.1 rfl, h10.2.2.2 rfl⟩,
    ⟨h11.1 rfl, h11.2.1 rfl, h11.2.2.1 rfl, h11.2.2.2.1 rfl, h11.2.2.2.2 rfl⟩,
    ⟨h12.1 rfl, h12.2.1 rfl, h12.2.2.1 rfl, h12.2.2.2.1 rfl, h12.2.2.2.2 rfl⟩⟩

/-- C7 (amended): the count and timing fields of DocumentUploadResponse
are declared as plain `int`/`float` with no range constraint, so every
integer (including negative) value is accepted verbatim. -/
theorem c7_counts_unconstrained (c l i : Int) (t : Rat) :
    validateDocumentUploadResponse [("success", Json.bool true),
        ("document_id", Json.str "d"), ("title", Json.str "t"),
        ("chunks_created", Json.int c), ("links_extracted", Json.int l),
        ("images_extracted", Json.int i), ("processing_time_ms", Json.num t)]
      = .ok ⟨true, "d", "t", c, l, i, t⟩ := rfl

/-- Reduction of the int-field validator on string input: lax mode
parses the string, accepting it iff it is an integer literal. -/
theorem vReqInt_str (loc : List String) (s : String) :
    vReqInt loc (some (Json.str s))
      = (match parseIntString s with
         | some n => .ok n
         | none => .error [⟨loc, "int_parsing", Json.str s⟩]) := rfl

/-- TokenUsage validation with a string `prompt_tokens`, as a function of
how the string parses. -/
theorem validateTokenUsage_strPrompt (s : String) :
    validateTokenUsage [("prompt_tokens", Json.str s), ("completion_tokens", Json.int 3),
        ("total_tokens", Json.int 8), ("estimated_cost_usd", Json.num 0)]
      = (match parseIntString s with
         | some n => .ok ⟨n, 3, 8, 0⟩
         | none => .error [⟨["prompt_tokens"], "int_parsing", Json.str s⟩]) := by
  show vApp (vApp (vApp (vApp (Except.ok TokenUsage.mk)
      (vReqInt ["prompt_tokens"] (some (Json.str s))))
      (Except.ok (3 : Int))) (Except.ok (8 : Int))) (Except.ok (0 : Rat)) = _
  rw [vReqInt_str]
  cases hp : parseIntString s <;> rfl

/-- DocumentUploadResponse validation with a string `chunks_created`, as
a function of how the string parses. -/
theorem validateDUR_strChunks (s : String) :
    validateDocumentUploadResponse [("success", Json.bool true),
        ("document_id", Json.str "d"), ("title", Json.str "t"),
        ("chunks_created", Json.str s), ("processing_time_ms", Json.num 2)]
      = (match parseIntString s with
         | some n => .ok ⟨true, "d", "t", n, 0, 0, 2⟩
         | none => .error [⟨["chunks_created"], "int_parsing", Json.str s⟩]) := by
  show vApp (vApp (vApp (vApp (vApp (vApp (vApp (Except.ok DocumentUploadResponse.mk)
      (Except.ok true)) (Except.ok "d")) (Except.ok "t"))
      (vReqInt ["chunks_created"] (some (Json.str s))))
      (Except.ok (0 : Int))) (Except.ok (0 : Int))) (Except.ok (2 : Rat)) = _
  rw [vReqInt_str]
  cases hp : parseIntString s <;> rfl

/-- C2 counterexample: a string value supplied for the numeric field
`prompt_tokens` does NOT make validation fail — lax mode silently parses
"5" as the integer 5. -/
theorem c2_string_silently_parsed :
    validateTokenUsage [("prompt_tokens", Json.str "5"),
        ("completion_tokens", Json.int 3), ("total_tokens", Json.int 8),
        ("estimated_cost_usd", Json.num 0)]
      = .ok ⟨5, 3, 8, 0⟩ := rfl

/-- C2 (amended): for int-typed fields a string input is coerced when it
is a decimal integer literal and rejected with `int_parsing` otherwise;
the outcome is decided by the parse, not by a type-mismatch failure. -/
theorem c2_numeric_string_lax :
    ∀ s : String,
      (parseIntString s = none →
        validateTokenUsage [("prompt_tokens", Json.str s),
            ("completion_tokens", Json.int 3), ("total_tokens", Json.int 8),
            ("estimated_cost_usd", Json.num 0)]
          = .error [⟨["prompt_tokens"], "int_parsing", Json.str s⟩]
        ∧ validateDocumentUploadResponse [("success", Json.bool true),
            ("document_id", Json.str "d"), ("title", Json.str "t"),
            ("chunks_created", Json.str s), ("processing_time_ms", Json.num 2)]
          = .error [⟨["chunks_created"], "int_parsing", Json.str s⟩])
      ∧ (∀ n : Int, parseIntString s = some n →
        validateTokenUsage [("prompt_tokens", Json.str s),
            ("completion_tokens", Json.int 3), ("total_tokens", Json.int 8),
            ("estimated_cost_usd", Json.num 0)]
          = .ok ⟨n, 3, 8, 0⟩
        ∧ validateDocumentUploadResponse [("success", Json.bool true),
            ("document_id", Json.str "d"), ("title", Json.str "t"),
            ("chunks_created", Json.str s), ("processing_time_ms", Json.num 2)]
          = .ok ⟨true, "d", "t", n, 0, 0, 2⟩) := by
  intro s
  constructor
  · intro h
    rw [validateTokenUsage_strPrompt, validateDUR_strChunks, h]
    exact ⟨rfl, rfl⟩
  · intro n h
    rw [validateTokenUsage_strPrompt, validateDUR_strChunks, h]
    exact ⟨rfl, rfl⟩

/-- C2 witness: "abc" does not parse and is rejected; "7" parses and is
silently coerced to 7. -/
theorem c2_witness :
    (validateTokenUsage [("prompt_tokens", Json.str "abc"),
        ("completion_tokens", Json.int 3), ("total_tokens", Json.int 8),
        ("estimated_cost_usd", Json.num 0)]
      = .error [⟨["prompt_tokens"], "int_parsing", Json.str "abc"⟩]
    ∧ validateDocumentUploadResponse [("success", Json.bool true),
        ("document_id", Json.str "d"), ("title", Json.str "t"),
        ("chunks_created", Json.str "abc"), ("processing_time_ms", Json.num 2)]
      = .error [⟨["chunks_created"], "int_parsing", Json.str "abc"⟩])
    ∧ (validateTokenUsage [("prompt_tokens", Json.str "7"),
        ("completion_tokens", Json.int 3), ("total_tokens", Json.int 8),
        ("estimated_cost_usd", Json.num 0)]
      = .ok ⟨7, 3, 8, 0⟩
    ∧ validateDocumentUploadResponse [("success", Json.bool true),
        ("document_id", Json.str "d"), ("title", Json.str "t"),
        ("chunks_created", Json.str "7"), ("processing_time_ms", Json.num 2)]
      = .ok ⟨true, "d", "t", 7, 0, 0, 2⟩) :=
  ⟨(c2_numeric_string_lax "abc").1 rfl, (c2_numeric_string_lax "7").2 7 rfl⟩

/-- C8 counterexample: a QueryResponse whose two sources both carry id 0
(non-positive, non-unique, non-sequential) passes validation. -/
theorem c8_bad_ids_accepted :
    validateQueryResponse [("answer", Json.str "a"),
        ("sources", Json.arr [
          Json.obj [("id", Json.int 0), ("text", Json.str "t1"),
            ("document", Json.str "d1"), ("score", Json.num 1)],
          Json.obj [("id", Json.int 0), ("text", Json.str "t2"),
            ("document", Json.str "d2"), ("score", Json.num 2)]]),
        ("has_context", Json.bool true),
        ("timing", Json.obj [("retrieval_ms", Json.num 1), ("rerank_ms", Json.num 1),
          ("llm_ms", Json.num 1), ("total_ms", Json.num 3)])]
      = .ok ⟨"a", [⟨0, "t1", "d1", [], [], 1, none, none⟩,
          ⟨0, "t2", "d2", [], [], 2, none, none⟩], true, none, ⟨1, 1, 1, 3⟩, none, none⟩
      ∧ ¬ (0 < (0 : Int)) := ⟨rfl, by decide⟩

/-- C8 (amended): `SourceReference.id` is a plain int and QueryResponse
performs no cross-source check, so any pair of ids — non-positive,
duplicated or non-sequential — is accepted verbatim. -/
theorem c8_ids_unconstrained (i j : Int) :
    validateQueryResponse [("answer", Json.str "a"),
        ("sources", Json.arr [
          Json.obj [("id", Json.int i), ("text", Json.str "t1"),
            ("document", Json.str "d1"), ("score", Json.num 1)],
          Json.obj [("id", Json.int j), ("text", Json.str "t2"),
            ("document", Json.str "d2"), ("score", Json.num 2)]]),
        ("has_context", Json.bool true),
        ("timing", Json.obj [("retrieval_ms", Json.num 1), ("rerank_ms", Json.num 1),
          ("llm_ms", Json.num 1), ("total_ms", Json.num 3)])]
      = .ok ⟨"a", [⟨i, "t1", "d1", [], [], 1, none, none⟩,
          ⟨j, "t2", "d2", [], [], 2, none, none⟩], true, none, ⟨1, 1, 1, 3⟩, none, none⟩ := rfl

/-- C10: every schema of the contract layer ignores unknown input keys
(pydantic's default `extra="ignore"`): adding a binding for a key that is
not a declared field leaves the validation outcome unchanged — same
record on success, same errors on failure — for all twelve schemas. -/
theorem c10_unknown_fields_ignored (k : String) (v : Json)
    (m : List (String × Json)) (now : String) :
    (k ∉ ["text", "title"] →
      validateTextProcessRequest ((k, v) :: m) = validateTextProcessRequest m)
    ∧ (k ∉ ["success", "document_id", "title", "chunks_created", "links_extracted",
        "images_extracted", "processing_time_ms"] →
      validateDocumentUploadResponse ((k, v) :: m) = validateDocumentUploadResponse m)
    ∧ (k ∉ ["role", "content"] →
      validateChatMessage ((k, v) :: m) = validateChatMessage m)
    ∧ (k ∉ ["query", "session_id", "chat_history"] →
      validateQueryRequest ((k, v) :: m) = validateQueryRequest m)
    ∧ (k ∉ ["id", "text", "document", "links", "images", "score", "chunk_id", "section"] →
      validateSourceReference ((k, v) :: m) = validateSourceReference m)
    ∧ (k ∉ ["retrieval_ms", "rerank_ms", "llm_ms", "total_ms"] →
      validateTimingInfo ((k, v) :: m) = validateTimingInfo m)
    ∧ (k ∉ ["prompt_tokens", "completion_tokens", "total_tokens", "estimated_cost_usd"] →
      validateTokenUsage ((k, v) :: m) = validateTokenUsage m)
    ∧ (k ∉ ["answer", "sources", "has_context", "general_answer", "timing",
        "token_usage", "session_id"] →
      validateQueryResponse ((k, v) :: m) = validateQueryResponse m)
    ∧ (k ∉ ["source", "title", "section", "chunk_id", "links", "images", "created_at"] →
      validateChunkMetadata now ((k, v) :: m) = validateChunkMetadata now m)
    ∧ (k ∉ ["chunk_id", "text", "score", "metadata"] →
      validateRetrievedChunk now ((k, v) :: m) = validateRetrievedChunk now m)
    ∧ (k ∉ ["chunk_id", "text", "score", "original_score", "metadata"] →
      validateRerankedChunk now ((k, v) :: m) = validateRerankedChunk now m)
    ∧ (k ∉ ["status", "qdrant_connected", "openai_configured", "cohere_configured",
        "timestamp"] →
      validateHealthResponse now ((k, v) :: m) = validateHealthResponse now m) := by
  refine ⟨?_, ?_, ?_, ?_, ?_, ?_, ?_, ?_, ?_, ?_, ?_, ?_⟩ <;>
    · intro h
      simp only [List.mem_cons, List.mem_singleton, List.not_mem_nil,
        or_false, not_or] at h
      first
      | (obtain ⟨h1, h2⟩ := h
         simp only [validateTextProcessRequest, validateChatMessage]
         rw [getField_cons_ne h1 v m, getField_cons_ne h2 v m])
      | (obtain ⟨h1, h2, h3⟩ := h
         simp only [validateQueryRequest]
         rw [getField_cons_ne h1 v m, getField_cons_ne h2 v m,
           getField_cons_ne h3 v m])
      | (obtain ⟨h1, h2, h3, h4⟩ := h
         simp only [validateTimingInfo, validateTokenUsage, validateRetrievedChunk]
         rw [getField_cons_ne h1 v m, getField_cons_ne h2 v m,
           getField_cons_ne h3 v m, getField_cons_ne h4 v m])
      | (obtain ⟨h1, h2, h3, h4, h5⟩ := h
         simp only [validateRerankedChunk, validateHealthResponse]
         rw [getField_cons_ne h1 v m, getField_cons_ne h2 v m,
           getField_cons_ne h3 v m, getField_cons_ne h4 v m,
           getField_cons_ne h5 v m])
      | (obtain ⟨h1, h2, h3, h4, h5, h6, h7⟩ := h
         simp only [validateDocumentUploadResponse, validateQueryResponse,
           validateChunkMetadata]
         rw [getField_cons_ne h1 v m, getField_cons_ne h2 v m,
           getField_cons_ne h3 v m, getField_cons_ne h4 v m,
           getField_cons_ne h5 v m, getField_cons_ne h6 v m,
           getField_cons_ne h7 v m])
      | (obtain ⟨h1, h2, h3, h4, h5, h6, h7, h8⟩ := h
         simp only [validateSourceReference]
         rw [getField_cons_ne h1 v m, getField_cons_ne h2 v m,
           getField_cons_ne h3 v m, getField_cons_ne h4 v m,
           getField_cons_ne h5 v m, getField_cons_ne h6 v m,
           getField_cons_ne h7 v m, getField_cons_ne h8 v m])

/-- C10 witness: an undeclared key `extra` with a boolean value is
ignored by every schema's validator. -/
theorem c10_witness :
    validateTextProcessRequest [("extra", Json.bool true)]
        = validateTextProcessRequest []
    ∧ validateDocumentUploadResponse [("extra", Json.bool true)]
        = validateDocumentUploadResponse []
    ∧ validateChatMessage [("extra", Json.bool true)] = validateChatMessage []
    ∧ validateQueryRequest [("extra", Json.bool true)] = validateQueryRequest []
    ∧ validateSourceReference [("extra", Json.bool true)] = validateSourceReference []
    ∧ validateTimingInfo [("extra", Json.bool true)] = validateTimingInfo []
    ∧ validateTokenUsage [("extra", Json.bool true)] = validateTokenUsage []
    ∧ validateQueryResponse [("extra", Json.bool true)] = validateQueryResponse []
    ∧ validateChunkMetadata "T" [("extra", Json.bool true)] = validateChunkMetadata "T" []
    ∧ validateRetrievedChunk "T" [("extra", Json.bool true)] = validateRetrievedChunk "T" []
    ∧ validateRerankedChunk "T" [("extra", Json.bool true)] = validateRerankedChunk "T" []
    ∧ validateHealthResponse "T" [("extra", Json.bool true)]
        = validateHealthResponse "T" [] := by
  have h := c10_unknown_fields_ignored "extra" (Json.bool true) [] "T"
  exact ⟨h.1 (by decide), h.2.1 (by decide), h.2.2.1 (by decide),
    h.2.2.2.1 (by decide), h.2.2.2.2.1 (by decide), h.2.2.2.2.2.1 (by decide),
    h.2.2.2.2.2.2.1 (by decide), h.2.2.2.2.2.2.2.1 (by decide),
    h.2.2.2.2.2.2.2.2.1 (by decide), h.2.2.2.2.2.2.2.2.2.1 (by decide),
    h.2.2.2.2.2.2.2.2.2.2.1 (by decide), h.2.2.2.2.2.2.2.2.2.2.2 (by decide)⟩
